import Mathlib

/-!
# RAGFlow retriever

A shallow embedding of the Go package `components/retriever/ragflow`
(`retriever.go`, `ragflow.go`, `utils.go`) together with theorems about it.

Conventions of the embedding:

* a Go pointer that is only ever read (`*int`, `*float64`, `*RetrieverConfig`,
  `*schema.Document`) is an `Option`, with `none` for `nil`;
* a Go `[]string` is `StrSlice`, with `none` for the `nil` slice;
* a Go function returning `(T, error)` returns `Except Failure T`; the branch
  `Except.error` stands for `return nil, err`, and a run-time panic is the
  separate constructor `Failure.panic`;
* `float64` scores are exact rationals `ℚ`;
* `int` and `time.Duration` are `Int`, wrapped to 64 bits where Go computes.
-/

namespace Ragflow

/-! ## Basic types -/

/-- How a Go call fails: by returning an `error` value, or by panicking. -/
inductive Failure where
  | error (msg : String)
  | panic (msg : String)
deriving DecidableEq, Repr

/-- A Go `[]string`; `none` is the `nil` slice. -/
abbrev StrSlice := Option (List String)

/-- Go's `len` on a `[]string`: zero on `nil` and on the empty slice. -/
def StrSlice.len : StrSlice → Nat
  | none => 0
  | some xs => xs.length

/-- Embeds `time.Second`, in nanoseconds. -/
def Second : Int := 1000000000

/-- Wrap an integer to Go's `int64` (two's complement). -/
def wrapInt64 (z : Int) : Int := (z + 2 ^ 63) % 2 ^ 64 - 2 ^ 63

/-- Embeds `strings.TrimRight(s, cutset)`: drop every trailing character of `s` that
occurs in `cutset`. -/
def TrimRight (s cutset : String) : String :=
  ⟨s.data.rdropWhile (fun c => decide (c ∈ cutset.data))⟩

/-! ## Options and configuration (`ragflow.go`, `retriever.go`) -/

/-- Embeds `RetrievalRequestOption` of ragflow.go:21. -/
structure RetrievalRequestOption where
  Page : Option Int
  PageSize : Option Int
  SimilarityThreshold : Option ℚ
  VectorSimilarityWeight : Option ℚ
  TopK : Option Int
  RerankID : String
  Keyword : Bool
  Highlight : Bool
deriving DecidableEq

/-- Embeds `RetrieverConfig` of retriever.go:16. `Timeout` is the `int64` behind the
`time.Duration` field. -/
structure RetrieverConfig where
  APIKey : String
  Endpoint : String
  DatasetIDs : StrSlice
  DocumentIDs : StrSlice
  RetrievalRequestOption : Option RetrievalRequestOption
  Timeout : Int
deriving DecidableEq

/-- The one field of `http.Client` the package sets: `Timeout`, in nanoseconds
(zero means no timeout). -/
structure HttpClient where
  Timeout : Int
deriving DecidableEq

/-- Embeds `Retriever` of retriever.go:32. `config` is never `nil` for a retriever that
`NewRetriever` built, and `Retrieve` dereferences it unconditionally. -/
structure Retriever where
  config : RetrieverConfig
  client : HttpClient
  retrieverURL : String
  authorization : String
deriving DecidableEq

/-- Embeds `getURL` of retriever.go:39. -/
def getURL (endPoint : String) : String :=
  TrimRight endPoint "/" ++ "/api/v1/retrieval"

/-- Embeds `getAuth` of retriever.go:43 (`fmt.Sprintf("Bearer %s", APIKey)`). -/
def getAuth (APIKey : String) : String :=
  "Bearer " ++ APIKey

/-- Embeds `NewRetriever` of retriever.go:47. The constant `defaultEndpoint` is declared
in a file of the package that is not among the sources, so it is a parameter.
The assignment `config.Endpoint = defaultEndpoint` writes through the caller's
pointer; the retriever keeps that pointer, so its `config` shows the update. -/
def NewRetriever (defaultEndpoint : String) (config : Option RetrieverConfig) :
    Except Failure Retriever :=
  match config with
  | none => .error (.error "config is required")
  | some config =>
    if config.APIKey = "" then
      .error (.error "api_key is required")
    else if config.DatasetIDs.len = 0 ∧ config.DocumentIDs.len = 0 then
      .error (.error "dataset_ids or document_ids,one of its is required")
    else
      let config : RetrieverConfig :=
        if config.Endpoint = "" then { config with Endpoint := defaultEndpoint } else config
      let httpClient : HttpClient := { Timeout := 0 }
      let httpClient : HttpClient :=
        if config.Timeout ≠ 0 then { Timeout := wrapInt64 (config.Timeout * Second) }
        else httpClient
      .ok { config := config
            client := httpClient
            retrieverURL := getURL config.Endpoint
            authorization := getAuth config.APIKey }

/-! ## Helpers of `utils.go` -/

/-- Embeds `ptrOf` of utils.go:3. -/
def ptrOf {T : Type} (v : T) : Option T := some v

/-- Embeds `dereferenceOrZero` of utils.go:7; the zero value of `T` is `default`. -/
def dereferenceOrZero {T : Type} [Inhabited T] (p : Option T) : T :=
  match p with
  | none => default
  | some v => v

/-- Embeds `copyPtr` of utils.go:15, on pointers that are only read: a fresh cell with
the same content is the same `Option` value. The version with explicit cells is
`Mem.copyPtr` below. -/
def copyPtr {T : Type} (ptr : Option T) : Option T :=
  match ptr with
  | none => none
  | some val => some val

/-! ## Request construction (`ragflow.go`) -/

/-- Embeds `(*RetrievalRequestOption).copy` of ragflow.go:72. -/
def copy (x : Option RetrievalRequestOption) : RetrievalRequestOption :=
  match x with
  | none =>
    { Page := none, PageSize := none, SimilarityThreshold := none,
      VectorSimilarityWeight := none, TopK := none, RerankID := "",
      Keyword := false, Highlight := false }
  | some x =>
    { Page := copyPtr x.Page
      PageSize := copyPtr x.PageSize
      SimilarityThreshold := copyPtr x.SimilarityThreshold
      VectorSimilarityWeight := copyPtr x.VectorSimilarityWeight
      TopK := copyPtr x.TopK
      RerankID := x.RerankID
      Keyword := x.Keyword
      Highlight := x.Highlight }

/-- Embeds `request` of ragflow.go:89; the embedded struct is a field of its own. -/
structure request where
  Question : String
  DatasetIDs : StrSlice
  DocumentIDs : StrSlice
  RetrievalRequestOption : RetrievalRequestOption
deriving DecidableEq

/-- Embeds `retriever.Options` of the host framework, restricted to the two fields
this package reads. -/
structure Options where
  TopK : Option Int
  ScoreThreshold : Option ℚ
deriving DecidableEq

/-- Modelled from the spec: the per-call options `retriever.Option` of the host
framework, which is not among the sources. An option either supplies a top-K
(`retriever.WithTopK`), or supplies a score threshold
(`retriever.WithScoreThreshold`), or touches neither of the two fields. -/
inductive RetrieverOption where
  | WithTopK (topK : Int)
  | WithScoreThreshold (threshold : ℚ)
  | other
deriving DecidableEq

/-- Modelled from the spec: what one per-call option does to the options it is
applied to (the framework's `Option.apply`, not among the sources). -/
def RetrieverOption.apply : RetrieverOption → Options → Options
  | .WithTopK topK, o => { o with TopK := some topK }
  | .WithScoreThreshold threshold, o => { o with ScoreThreshold := some threshold }
  | .other, o => o

/-- Modelled from the spec: `retriever.GetCommonOptions` of the host framework,
the common-options merge helper, which is not among the sources: it applies the
per-call options, in order, to the baseline ("the per-call value wins when
present"). -/
def GetCommonOptions (base : Options) (opts : List RetrieverOption) : Options :=
  opts.foldl (fun o opt => opt.apply o) base

/-- Embeds `(*Retriever).getRequest` of ragflow.go:172. -/
def getRequest (r : Retriever) (query : String) (option : Options) : request :=
  let rm := copy r.config.RetrievalRequestOption
  let rm := { rm with TopK := option.TopK }
  let rm := { rm with SimilarityThreshold := option.ScoreThreshold }
  { Question := query
    DatasetIDs := r.config.DatasetIDs
    DocumentIDs := r.config.DocumentIDs
    RetrievalRequestOption := rm }

/-! ## Response types and documents (`ragflow.go`) -/

/-- Embeds `errorResponse` of ragflow.go:97. -/
structure errorResponse where
  Code : String
  Message : String
deriving DecidableEq

/-- Embeds `Chunk` of ragflow.go:138. -/
structure Chunk where
  Content : String
  ContentLTKS : String
  DocumentID : String
  DocumentKeyWord : String
  Highlight : String
  ID : String
  ImageID : String
  ImportantKeywords : StrSlice
  KbID : String
  Positions : StrSlice
  Similarity : ℚ
  TermSimilarity : ℚ
  VectorSimilarity : ℚ
deriving DecidableEq

/-- Embeds `DocAgg` of ragflow.go:154. -/
structure DocAgg where
  Count : Int
  DocID : String
  DocName : String
deriving DecidableEq

/-- Embeds `Data` of ragflow.go:160. The code only ranges over `Chunks` and takes its
length, so the `nil` slice and the empty slice are both `[]`. -/
structure Data where
  Chunks : List Chunk
  DocAggs : List DocAgg
  Total : Int
deriving DecidableEq

/-- Embeds `successResponse` of ragflow.go:165. -/
structure successResponse where
  Code : Int
  Data : Data
deriving DecidableEq

/-- A value of Go's `any` as stored in a document's metadata. -/
inductive Value where
  | string (s : String)
  | strings (xs : StrSlice)
  | float64 (x : ℚ)
  | other (tag : Nat)
deriving DecidableEq

/-- A non-nil Go `map[string]any`: an association list with distinct keys. -/
abbrev GoMap := List (String × Value)

/-- The lookup `v, ok := m[k]` on a non-nil map. -/
def GoMap.get : GoMap → String → Option Value
  | [], _ => none
  | (k', v') :: m, k => if k' = k then some v' else GoMap.get m k

/-- The assignment `m[k] = v` on a non-nil map. -/
def GoMap.set : GoMap → String → Value → GoMap
  | [], k, v => [(k, v)]
  | (k', v') :: m, k, v => if k' = k then (k, v) :: m else (k', v') :: GoMap.set m k v

/-- Embeds `schema.Document` of the host framework: `ID`, `Content` and the metadata
map, which may be `nil`. -/
structure Document where
  ID : String
  Content : String
  MetaData : Option GoMap
deriving DecidableEq

/-- The lookup `v, ok := doc.MetaData[k]`; reading a `nil` map finds nothing. -/
def Document.index (doc : Document) (k : String) : Option Value :=
  match doc.MetaData with
  | none => none
  | some m => m.get k

/-- The assignment `doc.MetaData[k] = v`; writing to a `nil` map panics. -/
def Document.assign (doc : Document) (k : String) (v : Value) : Except Failure Document :=
  match doc.MetaData with
  | none => .error (.panic "assignment to entry in nil map")
  | some m => .ok { doc with MetaData := some (m.set k v) }

def origDocIDKey : String := "orig_doc_id"
def origDocNameKey : String := "orig_doc_name"
def keywordsKey : String := "keywords"

/-- The metadata key of the framework's document score; the package's test
reads the score back as `MetaData["_score"]`. -/
def docMetaDataKeyScore : String := "_score"

/-- Modelled from the spec: `(*schema.Document).WithScore` of the host framework,
which is not among the sources: it creates the metadata map when it is `nil`
and stores the score in it. -/
def Document.WithScore (d : Document) (score : ℚ) : Document :=
  let m : GoMap := match d.MetaData with
    | none => []
    | some m => m
  { d with MetaData := some (m.set docMetaDataKeyScore (.float64 score)) }

/-- Modelled from the spec: `(*schema.Document).Score` of the host framework,
which is not among the sources: the stored score, or zero when there is none. -/
def Document.Score (d : Document) : ℚ :=
  match d.index docMetaDataKeyScore with
  | some (.float64 x) => x
  | _ => 0

/-- Embeds `setOrgDocID` of ragflow.go:266; the result is the document after the call. -/
def setOrgDocID (doc : Option Document) (id : String) : Except Failure (Option Document) :=
  match doc with
  | none => .ok none
  | some doc => (doc.assign origDocIDKey (.string id)).map some

/-- Embeds `setOrgDocName` of ragflow.go:273. -/
def setOrgDocName (doc : Option Document) (name : String) : Except Failure (Option Document) :=
  match doc with
  | none => .ok none
  | some doc => (doc.assign origDocNameKey (.string name)).map some

/-- Embeds `setKeywords` of ragflow.go:280. -/
def setKeywords (doc : Option Document) (keywords : StrSlice) :
    Except Failure (Option Document) :=
  match doc with
  | none => .ok none
  | some doc => (doc.assign keywordsKey (.strings keywords)).map some

/-- Embeds `(*Chunk).toDoc` of ragflow.go:247. -/
def toDoc (x : Option Chunk) : Except Failure (Option Document) :=
  match x with
  | none => .ok none
  | some x =>
    let doc : Document := { ID := x.DocumentID, Content := x.Content, MetaData := some [] }
    let doc := doc.WithScore x.Similarity
    match setOrgDocID (some doc) x.DocumentID with
    | .error f => .error f
    | .ok doc =>
    match setKeywords doc x.ImportantKeywords with
    | .error f => .error f
    | .ok doc =>
    match setOrgDocName doc x.DocumentKeyWord with
    | .error f => .error f
    | .ok doc => .ok doc

/-- Embeds `GetOrgDocID` of ragflow.go:287; the assertion `v.(string)` panics on a value
of another type. -/
def GetOrgDocID (doc : Option Document) : Except Failure String :=
  match doc with
  | none => .ok ""
  | some doc =>
    match doc.index origDocIDKey with
    | some (.string s) => .ok s
    | some _ => .error (.panic "interface conversion: interface {} is not string")
    | none => .ok ""

/-- Embeds `GetOrgDocName` of ragflow.go:297. -/
def GetOrgDocName (doc : Option Document) : Except Failure String :=
  match doc with
  | none => .ok ""
  | some doc =>
    match doc.index origDocNameKey with
    | some (.string s) => .ok s
    | some _ => .error (.panic "interface conversion: interface {} is not string")
    | none => .ok ""

/-- Embeds `GetKeywords` of ragflow.go:307; the assertion `v.([]string)` panics on a
value of another type. -/
def GetKeywords (doc : Option Document) : Except Failure StrSlice :=
  match doc with
  | none => .ok none
  | some doc =>
    match doc.index keywordsKey with
    | some (.strings xs) => .ok xs
    | some _ => .error (.panic "interface conversion: interface {} is not []string")
    | none => .ok none

/-! ## HTTP round trip (`ragflow.go`) and the facade (`retriever.go`) -/

/-- The part of an outgoing `http.Request` the package determines. -/
structure HttpRequest where
  Method : String
  URL : String
  Body : String
  Header : List (String × String)
deriving DecidableEq

/-- The call `req.Header.Set(key, value)`. -/
def HttpRequest.setHeader (req : HttpRequest) (key value : String) : HttpRequest :=
  { req with Header := req.Header.filter (fun kv => decide (kv.1 ≠ key)) ++ [(key, value)] }

/-- The part of an `http.Response` the package reads: the status code and the
result of `io.ReadAll(resp.Body)`. -/
structure HttpResponse where
  StatusCode : Int
  Body : Except String String

/-- Embeds `http.StatusOK`. -/
def StatusOK : Int := 200

/-- Everything `doPost` calls outside the package: the JSON codec
(`sonic.MarshalString`, `sonic.Unmarshal` into an `errorResponse` and into a
`successResponse`), `http.NewRequestWithContext` (method, URL, body) and the
client's `Do`. Each returns its result or the text of its error. -/
structure Remote where
  MarshalString : request → Except String String
  NewRequestWithContext : String → String → String → Except String HttpRequest
  Do : HttpClient → HttpRequest → Except String HttpResponse
  UnmarshalError : String → Except String errorResponse
  UnmarshalSuccess : String → Except String successResponse

/-- Embeds `(*Retriever).doPost` of ragflow.go:187. Closing the body is deferred in
the source; a failure to close is only logged and changes no result. -/
def doPost (w : Remote) (r : Retriever) (query : String) (option : Options) :
    Except Failure successResponse :=
  match w.MarshalString (getRequest r query option) with
  | .error err => .error (.error ("error marshaling data: " ++ err))
  | .ok reqData =>
  match w.NewRequestWithContext "POST" r.retrieverURL reqData with
  | .error err => .error (.error ("create request failed: " ++ err))
  | .ok req =>
  let req := req.setHeader "Authorization" r.authorization
  let req := req.setHeader "Content-Type" "application/json"
  match w.Do r.client req with
  | .error err => .error (.error ("do request failed: " ++ err))
  | .ok resp =>
  match resp.Body with
  | .error err => .error (.error ("request failed: " ++ err))
  | .ok body =>
  if resp.StatusCode ≠ StatusOK then
    match w.UnmarshalError body with
    | .ok errResp =>
      if errResp.Message ≠ "" then
        .error (.error ("request failed: " ++ errResp.Message))
      else
        .error (.error ("request failed with status code: " ++ toString resp.StatusCode))
    | .error _ =>
      .error (.error ("request failed with status code: " ++ toString resp.StatusCode))
  else
    match w.UnmarshalSuccess body with
    | .error err => .error (.error ("decode response failed: " ++ err))
    | .ok res => .ok res

/-- Embeds `retriever.CallbackInput` as `Retrieve` fills it. -/
structure CallbackInput where
  Query : String
  TopK : Int
  ScoreThreshold : Option ℚ
deriving DecidableEq

/-- The lifecycle events `Retrieve` hands to the host framework. -/
inductive Event where
  | OnStart (input : CallbackInput)
  | OnError (err : String)
  | OnEnd (docs : List (Option Document))
deriving DecidableEq

/-- The test of retriever.go:108,
`options.ScoreThreshold != nil && record.Similarity < *options.ScoreThreshold`. -/
def belowThreshold (ScoreThreshold : Option ℚ) (record : Chunk) : Bool :=
  match ScoreThreshold with
  | none => false
  | some threshold => decide (record.Similarity < threshold)

/-- The loop of retriever.go:107-113: `docs` is the slice built so far. -/
def collectDocs (ScoreThreshold : Option ℚ) :
    List Chunk → List (Option Document) → Except Failure (List (Option Document))
  | [], docs => .ok docs
  | record :: rest, docs =>
    if belowThreshold ScoreThreshold record then
      collectDocs ScoreThreshold rest docs
    else
      match toDoc (some record) with
      | .error f => .error f
      | .ok doc => collectDocs ScoreThreshold rest (docs ++ [doc])

/-- The options `Retrieve` works with (retriever.go:76-83): the baseline from the
stored config, merged with the per-call options. -/
def mergedOptions (r : Retriever) (opts : List RetrieverOption) : Options :=
  let baseOptions : Options := { TopK := none, ScoreThreshold := none }
  let baseOptions : Options :=
    match r.config.RetrievalRequestOption with
    | some o => { baseOptions with TopK := o.TopK, ScoreThreshold := o.SimilarityThreshold }
    | none => baseOptions
  GetCommonOptions baseOptions opts

/-- Embeds `(*Retriever).Retrieve` of retriever.go:74: the returned pair
`(docs, err)` and the events emitted, in order. The deferred function emits
`OnError` exactly when the named result `err` is set. -/
def Retrieve (w : Remote) (r : Retriever) (query : String) (opts : List RetrieverOption) :
    Except Failure (List (Option Document)) × List Event :=
  let options := mergedOptions r opts
  let start := Event.OnStart
    { Query := query
      TopK := dereferenceOrZero options.TopK
      ScoreThreshold := options.ScoreThreshold }
  match doPost w r query options with
  | .error (.error err) =>
    let err := "failed to retrieve documents: " ++ err
    (.error (.error err), [start, .OnError err])
  | .error (.panic p) => (.error (.panic p), [start])
  | .ok result =>
    match collectDocs options.ScoreThreshold result.Data.Chunks [] with
    | .error f => (.error f, [start])
    | .ok docs => (.ok docs, [start, .OnEnd docs])

/-! ## Request construction over explicit memory

The `*int` and `*float64` fields are pointers. To state what `getRequest` leaves
untouched, this section keeps the cells they point to in an explicit memory: a
pointer is `none` (nil) or the index of its cell, `copyPtr` allocates a fresh
cell, and a field assignment replaces a pointer and writes no cell. -/

namespace Mem

/-- A pointer: `none` is `nil`, `some a` is the address of a cell. -/
abbrev Ptr := Option Nat

/-- The cells that `*int` and `*float64` pointers address. -/
structure Heap where
  ints : List Int
  floats : List ℚ
deriving DecidableEq

/-- Embeds `RetrievalRequestOption` of ragflow.go:21, with its pointer fields as
pointers. -/
structure RetrievalRequestOption where
  Page : Ptr
  PageSize : Ptr
  SimilarityThreshold : Ptr
  VectorSimilarityWeight : Ptr
  TopK : Ptr
  RerankID : String
  Keyword : Bool
  Highlight : Bool
deriving DecidableEq

/-- Embeds `retriever.Options`, with its pointer fields as pointers. -/
structure Options where
  TopK : Ptr
  ScoreThreshold : Ptr
deriving DecidableEq

/-- Embeds `request` of ragflow.go:89, with pointer fields. -/
structure request where
  Question : String
  DatasetIDs : StrSlice
  DocumentIDs : StrSlice
  RetrievalRequestOption : RetrievalRequestOption
deriving DecidableEq

/-- The memory a call of `getRequest` runs in: the cells, and the stored config
fields it reads (`r.config.DatasetIDs`, `r.config.DocumentIDs` and the struct
behind `r.config.RetrievalRequestOption`, `none` when that pointer is nil). -/
structure State where
  heap : Heap
  DatasetIDs : StrSlice
  DocumentIDs : StrSlice
  stored : Option RetrievalRequestOption
deriving DecidableEq

/-- Embeds `copyPtr` of utils.go:15 over a list of cells: `val := *ptr` reads the
cell, `&val` is the address of a fresh cell holding `val`. -/
def copyPtr {T : Type} [Inhabited T] (cells : List T) (ptr : Ptr) : Ptr × List T :=
  match ptr with
  | none => (none, cells)
  | some a =>
    let val := cells.getD a default
    (some cells.length, cells ++ [val])

/-- Embeds `(*RetrievalRequestOption).copy` of ragflow.go:72: the copy and the
memory after the five `copyPtr` calls. -/
def copy (h : Heap) (x : Option RetrievalRequestOption) : RetrievalRequestOption × Heap :=
  match x with
  | none =>
    ({ Page := none, PageSize := none, SimilarityThreshold := none,
       VectorSimilarityWeight := none, TopK := none, RerankID := "",
       Keyword := false, Highlight := false }, h)
  | some x =>
    let (page, ints) := copyPtr h.ints x.Page
    let (pageSize, ints) := copyPtr ints x.PageSize
    let (similarityThreshold, floats) := copyPtr h.floats x.SimilarityThreshold
    let (vectorSimilarityWeight, floats) := copyPtr floats x.VectorSimilarityWeight
    let (topK, ints) := copyPtr ints x.TopK
    ({ Page := page
       PageSize := pageSize
       SimilarityThreshold := similarityThreshold
       VectorSimilarityWeight := vectorSimilarityWeight
       TopK := topK
       RerankID := x.RerankID
       Keyword := x.Keyword
       Highlight := x.Highlight },
     { ints := ints, floats := floats })

/-- Embeds `(*Retriever).getRequest` of ragflow.go:172: the request built and the
memory after the call. The two assignments go to fields of the local `rm`. -/
def getRequest (s : State) (query : String) (option : Options) : request × State :=
  let (rm, heap) := copy s.heap s.stored
  let rm := { rm with TopK := option.TopK }
  let rm := { rm with SimilarityThreshold := option.ScoreThreshold }
  ({ Question := query
     DatasetIDs := s.DatasetIDs
     DocumentIDs := s.DocumentIDs
     RetrievalRequestOption := rm },
   { s with heap := heap })

/-- The value behind a pointer: `none` for `nil`. -/
def deref {T : Type} (cells : List T) (p : Ptr) : Option T :=
  match p with
  | none => none
  | some a => cells.get? a

/-- A pointer is valid when it is nil or addresses an existing cell. -/
def validPtr {T : Type} (cells : List T) (p : Ptr) : Prop :=
  match p with
  | none => True
  | some a => a < cells.length

/-- Every pointer field of the struct addresses an existing cell. -/
def RetrievalRequestOption.valid (h : Heap) (x : RetrievalRequestOption) : Prop :=
  validPtr h.ints x.Page ∧ validPtr h.ints x.PageSize ∧
  validPtr h.floats x.SimilarityThreshold ∧ validPtr h.floats x.VectorSimilarityWeight ∧
  validPtr h.ints x.TopK

/-- The stored options, when present, hold valid pointers. -/
def State.valid (s : State) : Prop :=
  match s.stored with
  | none => True
  | some x => x.valid s.heap

instance {T : Type} (cells : List T) (p : Ptr) : Decidable (validPtr cells p) :=
  match p with
  | none => isTrue trivial
  | some a => inferInstanceAs (Decidable (a < cells.length))

instance (h : Heap) (x : RetrievalRequestOption) : Decidable (x.valid h) := by
  unfold RetrievalRequestOption.valid
  infer_instance

instance (s : State) : Decidable s.valid := by
  unfold State.valid
  cases s.stored <;> infer_instance

/-- The struct with every pointer replaced by the value it points to. -/
def RetrievalRequestOption.view (h : Heap) (x : RetrievalRequestOption) :
    Ragflow.RetrievalRequestOption :=
  { Page := deref h.ints x.Page
    PageSize := deref h.ints x.PageSize
    SimilarityThreshold := deref h.floats x.SimilarityThreshold
    VectorSimilarityWeight := deref h.floats x.VectorSimilarityWeight
    TopK := deref h.ints x.TopK
    RerankID := x.RerankID
    Keyword := x.Keyword
    Highlight := x.Highlight }

/-- The per-call options with every pointer replaced by its value. -/
def Options.view (h : Heap) (o : Options) : Ragflow.Options :=
  { TopK := deref h.ints o.TopK
    ScoreThreshold := deref h.floats o.ScoreThreshold }

/-- The request with every pointer replaced by its value. -/
def request.view (h : Heap) (q : request) : Ragflow.request :=
  { Question := q.Question
    DatasetIDs := q.DatasetIDs
    DocumentIDs := q.DocumentIDs
    RetrievalRequestOption := q.RetrievalRequestOption.view h }

end Mem

/-! ## Sample inputs -/

/-- A config that `NewRetriever` accepts: the one of the package's test
"test empty endpoint", with a trailing-slash endpoint and a three-second timeout. -/
def sampleConfig : RetrieverConfig :=
  { APIKey := "test"
    Endpoint := "http://localhost/"
    DatasetIDs := some ["test"]
    DocumentIDs := none
    RetrievalRequestOption := none
    Timeout := 3 }

/-- The retriever `NewRetriever` builds from `sampleConfig`. -/
def sampleRetriever : Retriever :=
  { config := sampleConfig
    client := { Timeout := 3000000000 }
    retrieverURL := "http://localhost/api/v1/retrieval"
    authorization := "Bearer test" }

/-- The two chunks of the package's test "test success". -/
def sampleChunks : List Chunk :=
  [{ Content := "test content 1", ContentLTKS := "", DocumentID := "1st",
     DocumentKeyWord := "testName.file", Highlight := "", ID := "1", ImageID := "",
     ImportantKeywords := none, KbID := "", Positions := none,
     Similarity := 8 / 10, TermSimilarity := 0, VectorSimilarity := 0 },
   { Content := "test content 2", ContentLTKS := "", DocumentID := "1st",
     DocumentKeyWord := "testName.file", Highlight := "", ID := "2", ImageID := "",
     ImportantKeywords := none, KbID := "", Positions := none,
     Similarity := 6 / 10, TermSimilarity := 0, VectorSimilarity := 0 }]

/-- The success envelope of the package's test "test success". -/
def sampleSuccess : successResponse :=
  { Code := 0
    Data := { Chunks := sampleChunks
              DocAggs := [{ Count := 2, DocID := "1st", DocName := "testName.file" }]
              Total := 2 } }

/-- A body standing for the JSON of `sampleSuccess`. -/
def successBody : String := "success-envelope"

/-- The body `{"message":"mock error"}`: an error envelope with a message. -/
def messageBody : String := "\x7b\"message\":\"mock error\"\x7d"

/-- The body `{"error":{"message":"request failed"}}` of the package's test
"test request error": it decodes as an error envelope with an empty message. -/
def nestedBody : String := "\x7b\"error\":\x7b\"message\":\"request failed\"\x7d\x7d"

/-- A remote end that answers every request with the given status code and
body, and a codec that decodes the three sample bodies and rejects any other. -/
def sampleRemote (status : Int) (body : String) : Remote :=
  { MarshalString := fun _ => .ok "request"
    NewRequestWithContext := fun method url reqBody =>
      .ok { Method := method, URL := url, Body := reqBody, Header := [] }
    Do := fun _ _ => .ok { StatusCode := status, Body := .ok body }
    UnmarshalError := fun b =>
      if b = messageBody then .ok { Code := "", Message := "mock error" }
      else if b = nestedBody then .ok { Code := "", Message := "" }
      else .error "invalid json"
    UnmarshalSuccess := fun b =>
      if b = successBody then .ok sampleSuccess else .error "invalid json" }

/-- The request `doPost` hands to the client of `sampleRemote`. -/
def sampleRequest : HttpRequest :=
  { Method := "POST"
    URL := "http://localhost/api/v1/retrieval"
    Body := "request"
    Header := [("Authorization", "Bearer test"), ("Content-Type", "application/json")] }

/-- A memory holding the options of the package's test "test with valid
retrieval model" (page 1, page size 10, threshold 0.8, weight 0.7, top-K 5) and
the cell of a per-call top-K of 3. -/
def sampleState : Mem.State :=
  { heap := { ints := [1, 10, 5, 3], floats := [8 / 10, 7 / 10] }
    DatasetIDs := some ["test"]
    DocumentIDs := none
    stored := some
      { Page := some 0, PageSize := some 1, SimilarityThreshold := some 0,
        VectorSimilarityWeight := some 1, TopK := some 2, RerankID := "testRandID",
        Keyword := false, Highlight := false } }

/-- Per-call options over `sampleState`: a top-K of 3 and no threshold. -/
def sampleOptions : Mem.Options :=
  { TopK := some 3, ScoreThreshold := none }

/-- The config of the package's test "test empty dataset_id": an APIKey, an
endpoint, and neither dataset nor document IDs. -/
def noIDsConfig : RetrieverConfig :=
  { APIKey := "test"
    Endpoint := "https://ragflow.io"
    DatasetIDs := none
    DocumentIDs := none
    RetrievalRequestOption := none
    Timeout := 0 }

/-! ## The effective per-call values, in the specification's words -/

/-- The top-K the per-call options supply, if any; of several, the last. -/
def suppliedTopK : List RetrieverOption → Option Int
  | [] => none
  | opt :: opts =>
    match suppliedTopK opts with
    | some topK => some topK
    | none =>
      match opt with
      | .WithTopK topK => some topK
      | _ => none

/-- The score threshold the per-call options supply, if any; of several, the
last. -/
def suppliedScoreThreshold : List RetrieverOption → Option ℚ
  | [] => none
  | opt :: opts =>
    match suppliedScoreThreshold opts with
    | some threshold => some threshold
    | none =>
      match opt with
      | .WithScoreThreshold threshold => some threshold
      | _ => none

/-- The effective top-K: the per-call value when one is supplied, otherwise the
stored config's value, unset when the config has no options. -/
def effectiveTopK (config : RetrieverConfig) (opts : List RetrieverOption) : Option Int :=
  match suppliedTopK opts with
  | some topK => some topK
  | none =>
    match config.RetrievalRequestOption with
    | some o => o.TopK
    | none => none

/-- The effective score threshold: the per-call value when one is supplied,
otherwise the stored config's value, unset when the config has no options. -/
def effectiveScoreThreshold (config : RetrieverConfig) (opts : List RetrieverOption) :
    Option ℚ :=
  match suppliedScoreThreshold opts with
  | some threshold => some threshold
  | none =>
    match config.RetrievalRequestOption with
    | some o => o.SimilarityThreshold
    | none => none

/-- The request the specification has `Retrieve` send: the query, the stored ID
lists, the stored options (all unset when the config has none), and as top-K
and similarity threshold the effective values. -/
def effectiveRequest (r : Retriever) (query : String) (opts : List RetrieverOption) : request :=
  { Question := query
    DatasetIDs := r.config.DatasetIDs
    DocumentIDs := r.config.DocumentIDs
    RetrievalRequestOption :=
      match r.config.RetrievalRequestOption with
      | some o =>
        { o with
          TopK := effectiveTopK r.config opts
          SimilarityThreshold := effectiveScoreThreshold r.config opts }
      | none =>
        { Page := none, PageSize := none
          SimilarityThreshold := effectiveScoreThreshold r.config opts
          VectorSimilarityWeight := none
          TopK := effectiveTopK r.config opts
          RerankID := "", Keyword := false, Highlight := false } }

end Ragflow

/-!
# Logging callback

A shallow embedding of the Go package `callbacks/logs` (`log.go`). A writer is an
operation on an explicit world state that may fail; a hook that returns gives
the context it hands back together with the world after its writes, the writes
it attempted and the lines it logs, and a hook that panics gives
`Failure.panic`.
-/

namespace Callback

/-- An `io.Writer` over the world state `σ`: what one `Write` of a text does to
the world, and the error it returns (`none` for `nil`). `fmt.Fprintf` formats
its arguments and calls `Write` once, returning that error. -/
abbrev IoWriter (σ : Type) := σ → String → Option String × σ

/-- Embeds `LogCallbackConfig` of log.go:13; a `nil` writer is `none`. -/
structure LogCallbackConfig (σ : Type) where
  Detail : Bool
  Debug : Bool
  Writer : Option (IoWriter σ)

/-- The fields of the framework's `callbacks.RunInfo` the hooks print (`Typ` is
the field `Type`). The hooks receive a `*callbacks.RunInfo`, which is an
`Option RunInfo` here, `none` for `nil`. -/
structure RunInfo where
  Name : String
  Typ : String
  Component : String
deriving DecidableEq

/-- The two calls into `encoding/json`, on payloads of type `ι`: `json.Marshal(v)`
and `json.MarshalIndent(v, "", "  ")`, each giving the bytes or an error. -/
structure Json (ι : Type) where
  Marshal : ι → Except String String
  MarshalIndent : ι → Except String String

/-- The bytes kept by `b, _ = json.Marshal(...)`: on an error the bytes are nil,
which `string(b)` turns into the empty string. -/
def bytesOrNil (r : Except String String) : String :=
  match r with
  | .ok b => b
  | .error _ => ""

/-- What a hook does: the context it returns (`none` for `nil`), the world after
its writes, the writes it attempted, each with the error it got, and the lines
it passed to `log.Printf`. -/
structure HookResult (κ σ : Type) where
  ctx : Option κ
  world : σ
  writes : List (String × Option String)
  logs : List String

/-- The function given to `builder.OnStartFn` at log.go:30, over the config as
`LogCallback` left it (`Writer` is the non-nil `config.Writer`). The arguments
of the first `Fprintf` read `info.Component`, so a nil `info` panics before
anything is written. -/
def OnStartFn {κ σ ι : Type} (Detail Debug : Bool) (Writer : IoWriter σ) (json : Json ι)
    (world : σ) (ctx : Option κ) (info : Option RunInfo) (input : ι) :
    Except Ragflow.Failure (HookResult κ σ) :=
  match info with
  | none => .error (.panic "runtime error: invalid memory address or nil pointer dereference")
  | some info =>
    let header := "[view]: start [" ++ info.Component ++ ":" ++ info.Typ ++ ":" ++ info.Name
      ++ "]\n"
    match Writer world header with
    | (some err, world) =>
      .ok { ctx := none
            world := world
            writes := [(header, some err)]
            logs := ["[logCallBack build OnStartFn] writr [view] err=" ++ err] }
    | (none, world) =>
      if Detail then
        let b : String :=
          if Debug then bytesOrNil (json.MarshalIndent input)
          else bytesOrNil (json.Marshal input)
        match Writer world (b ++ "\n") with
        | (some err, world) =>
          .ok { ctx := none
                world := world
                writes := [(header, none), (b ++ "\n", some err)]
                logs := ["[logCallBack build OnStartFn] writr [input] err=" ++ err] }
        | (none, world) =>
          .ok { ctx := ctx
                world := world
                writes := [(header, none), (b ++ "\n", none)]
                logs := [] }
      else
        .ok { ctx := ctx, world := world, writes := [(header, none)], logs := [] }

/-- The function given to `builder.OnEndFn` at log.go:51; a nil `info` panics
before anything is written. -/
def OnEndFn {κ σ ο : Type} (Writer : IoWriter σ)
    (world : σ) (ctx : Option κ) (info : Option RunInfo) (_output : ο) :
    Except Ragflow.Failure (HookResult κ σ) :=
  match info with
  | none => .error (.panic "runtime error: invalid memory address or nil pointer dereference")
  | some info =>
    let header := "[view]: end [" ++ info.Component ++ ":" ++ info.Typ ++ ":" ++ info.Name
      ++ "]\n"
    match Writer world header with
    | (some err, world) =>
      .ok { ctx := none
            world := world
            writes := [(header, some err)]
            logs := ["[logCallBack build OnEndFn] writr [view] err=" ++ err] }
    | (none, world) =>
      .ok { ctx := ctx, world := world, writes := [(header, none)], logs := [] }

/-- The handler `builder.Build()` returns: the two hooks that were registered. -/
structure Handler (κ σ ι ο : Type) where
  OnStart : σ → Option κ → Option RunInfo → ι → Except Ragflow.Failure (HookResult κ σ)
  OnEnd : σ → Option κ → Option RunInfo → ο → Except Ragflow.Failure (HookResult κ σ)

/-- Embeds `LogCallback` of log.go:19. `Stdout` is `os.Stdout`: a nil config becomes
`{Detail: true, Writer: os.Stdout}`, and a nil writer becomes `os.Stdout`. -/
def LogCallback {κ σ ι ο : Type} (Stdout : IoWriter σ) (json : Json ι)
    (config : Option (LogCallbackConfig σ)) : Handler κ σ ι ο :=
  let config : LogCallbackConfig σ :=
    match config with
    | none => { Detail := true, Debug := false, Writer := some Stdout }
    | some config => config
  let writer : IoWriter σ :=
    match config.Writer with
    | none => Stdout
    | some w => w
  { OnStart := OnStartFn config.Detail config.Debug writer json
    OnEnd := OnEndFn writer }

/-- The writer the hooks of `LogCallback` write to: the config's writer, or
`os.Stdout` when the config or its writer is nil. -/
def writerOf {σ : Type} (Stdout : IoWriter σ) (config : Option (LogCallbackConfig σ)) :
    IoWriter σ :=
  match config with
  | none => Stdout
  | some config =>
    match config.Writer with
    | none => Stdout
    | some w => w

/-- A hook's attempted writes include one that failed. -/
def HookResult.writeFailed {κ σ : Type} (res : HookResult κ σ) : Bool :=
  res.writes.any (fun a => a.2.isSome)

/-- A writer over the world "everything written so far" that fails, writing
nothing, once `limit` texts have been written. -/
def limitedWriter (limit : Nat) : IoWriter (List String) :=
  fun world text =>
    if world.length < limit then (none, world ++ [text])
    else (some "short write", world)

/-- A JSON encoder for string payloads, good enough for a sample run. -/
def sampleJson : Json String :=
  { Marshal := fun v => .ok ("\"" ++ v ++ "\"")
    MarshalIndent := fun v => .ok ("\"" ++ v ++ "\"") }

/-- The run info of a retriever invocation. -/
def sampleInfo : RunInfo :=
  { Name := "", Typ := "RAGFlow", Component := "Retriever" }

end Callback

namespace Ragflow

/-! ## Lemmas on `TrimRight` -/

theorem rdropWhile_decomp {α : Type} (p : α → Bool) (x : α) (hp : ∀ c, p c = true ↔ c = x)
    (l : List α) : ∃ n, l = l.rdropWhile p ++ List.replicate n x := by
  induction l using List.reverseRecOn with
  | nil => exact ⟨0, by simp⟩
  | append_singleton l y ih =>
    rw [List.rdropWhile_concat]
    by_cases hy : p y = true
    · obtain ⟨n, hn⟩ := ih
      refine ⟨n + 1, ?_⟩
      rw [if_pos hy, List.replicate_succ', ← List.append_assoc, ← hn, (hp y).1 hy]
    · exact ⟨0, by simp [hy]⟩

theorem rdropWhile_no_trailing {α : Type} (p : α → Bool) (x : α) (hx : p x = true)
    (l u : List α) : l.rdropWhile p ≠ u ++ [x] := by
  intro h
  have h1 := List.rdropWhile_idempotent p l
  rw [h, List.rdropWhile_concat_pos _ _ _ hx] at h1
  have h2 := ( List.rdropWhile_prefix p u).length_le
  rw [h1] at h2
  simp at h2

/-- Trimming "/" splits a string into the trimmed part, which does not end in
"/", and a run of "/". -/
theorem TrimRight_slash (e : String) :
    (∃ n, e = TrimRight e "/" ++ ⟨List.replicate n '/'⟩) ∧
    ∀ u : String, TrimRight e "/" ≠ u ++ "/" := by
  have hp : ∀ c : Char, (fun c => decide (c ∈ "/".data)) c = true ↔ c = '/' := by
    intro c; simp
  constructor
  · obtain ⟨n, hn⟩ := rdropWhile_decomp _ '/' hp e.data
    refine ⟨n, ?_⟩
    apply String.ext
    rw [String.data_append]
    exact hn
  · intro u h
    have := congrArg String.data h
    rw [String.data_append] at this
    exact rdropWhile_no_trailing _ '/' (by simp) e.data u.data this

theorem TrimRight_append_slash (e : String) : TrimRight (e ++ "/") "/" = TrimRight e "/" := by
  apply String.ext
  show List.rdropWhile _ (e ++ "/").data = List.rdropWhile _ e.data
  rw [String.data_append]
  exact List.rdropWhile_concat_pos _ _ _ (by simp)

/-! ## Construction: `NewRetriever` -/

/-- What `NewRetriever` returns on a config that passes the three checks. -/
theorem NewRetriever_accepts (defaultEndpoint : String) (c : RetrieverConfig)
    (hkey : c.APIKey ≠ "") (hids : ¬ (c.DatasetIDs.len = 0 ∧ c.DocumentIDs.len = 0)) :
    NewRetriever defaultEndpoint (some c) =
      .ok { config := if c.Endpoint = "" then { c with Endpoint := defaultEndpoint } else c
            client := if c.Timeout ≠ 0 then { Timeout := wrapInt64 (c.Timeout * Second) }
                      else { Timeout := 0 }
            retrieverURL := getURL (if c.Endpoint = "" then defaultEndpoint else c.Endpoint)
            authorization := getAuth c.APIKey } := by
  unfold NewRetriever
  simp only [if_neg hkey, if_neg hids]
  by_cases he : c.Endpoint = "" <;> simp [he]

/-- A config that `NewRetriever` accepts passed the three checks. -/
theorem NewRetriever_ok_inv (defaultEndpoint : String) (c : RetrieverConfig) (r : Retriever)
    (h : NewRetriever defaultEndpoint (some c) = .ok r) :
    c.APIKey ≠ "" ∧ ¬ (c.DatasetIDs.len = 0 ∧ c.DocumentIDs.len = 0) := by
  unfold NewRetriever at h
  by_cases hkey : c.APIKey = ""
  · simp [hkey] at h
  · by_cases hids : c.DatasetIDs.len = 0 ∧ c.DocumentIDs.len = 0
    · simp [hkey, hids] at h
    · exact ⟨hkey, hids⟩

/-- C2: `NewRetriever` fails exactly when the config is nil, or its APIKey is
empty, or both ID lists are empty; a nil config gives "config is required", an
empty APIKey gives "api_key is required" whatever the ID lists are, and every
other config gives a retriever and no error. -/
theorem NewRetriever_fails_iff (defaultEndpoint : String) (config : Option RetrieverConfig) :
    ((∃ f, NewRetriever defaultEndpoint config = .error f) ↔
      (config = none ∨ ∃ c, config = some c ∧
        (c.APIKey = "" ∨ (c.DatasetIDs.len = 0 ∧ c.DocumentIDs.len = 0)))) ∧
    (config = none →
      NewRetriever defaultEndpoint config = .error (.error "config is required")) ∧
    (∀ c, config = some c → c.APIKey = "" →
      NewRetriever defaultEndpoint config = .error (.error "api_key is required")) ∧
    (∀ c, config = some c → c.APIKey ≠ "" →
      ¬ (c.DatasetIDs.len = 0 ∧ c.DocumentIDs.len = 0) →
      ∃ r, NewRetriever defaultEndpoint config = .ok r) := by
  refine ⟨?_, ?_, ?_, ?_⟩
  · cases config with
    | none => simp [NewRetriever]
    | some c =>
      by_cases hkey : c.APIKey = ""
      · simp [NewRetriever, hkey]
      · by_cases hids : c.DatasetIDs.len = 0 ∧ c.DocumentIDs.len = 0
        · simp [NewRetriever, hkey, hids]
        · rw [NewRetriever_accepts defaultEndpoint c hkey hids]
          simp [hkey, hids]
  · rintro rfl
    rfl
  · rintro c rfl hkey
    simp [NewRetriever, hkey]
  · rintro c rfl hkey hids
    exact ⟨_, NewRetriever_accepts defaultEndpoint c hkey hids⟩

/-- C7: for an accepted config the request URL is the effective endpoint
without its trailing "/" characters, followed by "/api/v1/retrieval", the
authorization value is "Bearer " followed by the APIKey, and the effective
endpoint with one more "/" gives the same URL. -/
theorem NewRetriever_url_authorization (defaultEndpoint : String) (c : RetrieverConfig)
    (r : Retriever) (h : NewRetriever defaultEndpoint (some c) = .ok r) :
    (∃ t n, (if c.Endpoint = "" then defaultEndpoint else c.Endpoint)
            = t ++ ⟨List.replicate n '/'⟩ ∧
        (∀ u : String, t ≠ u ++ "/") ∧
        r.retrieverURL = t ++ "/api/v1/retrieval") ∧
    r.authorization = "Bearer " ++ c.APIKey ∧
    getURL ((if c.Endpoint = "" then defaultEndpoint else c.Endpoint) ++ "/") = r.retrieverURL ∧
    (∃ r2, NewRetriever defaultEndpoint
        (some { c with
          Endpoint := (if c.Endpoint = "" then defaultEndpoint else c.Endpoint) ++ "/" })
        = .ok r2 ∧ r2.retrieverURL = r.retrieverURL) := by
  obtain ⟨hkey, hids⟩ := NewRetriever_ok_inv defaultEndpoint c r h
  rw [NewRetriever_accepts defaultEndpoint c hkey hids] at h
  injection h with h
  subst h
  have hne : ∀ e : String, e ++ "/" ≠ "" := by
    intro e he
    have := congrArg String.length he
    simp at this
    exact absurd this.2 (by decide)
  refine ⟨?_, rfl, ?_, ?_⟩
  · obtain ⟨⟨n, hn⟩, ht⟩ := TrimRight_slash (if c.Endpoint = "" then defaultEndpoint else c.Endpoint)
    exact ⟨_, n, hn, ht, rfl⟩
  · simp only [getURL, TrimRight_append_slash]
  · refine ⟨_, NewRetriever_accepts defaultEndpoint _ hkey hids, ?_⟩
    simp only [hne, if_false, getURL, TrimRight_append_slash]

/-- Witness of C7 at `sampleConfig`. -/
theorem NewRetriever_url_authorization_witness :
    (∃ t n, (if sampleConfig.Endpoint = "" then "https://ragflow.io" else sampleConfig.Endpoint)
            = t ++ ⟨List.replicate n '/'⟩ ∧
        (∀ u : String, t ≠ u ++ "/") ∧
        sampleRetriever.retrieverURL = t ++ "/api/v1/retrieval") ∧
    sampleRetriever.authorization = "Bearer " ++ sampleConfig.APIKey ∧
    getURL ((if sampleConfig.Endpoint = "" then "https://ragflow.io"
      else sampleConfig.Endpoint) ++ "/") = sampleRetriever.retrieverURL ∧
    (∃ r2, NewRetriever "https://ragflow.io"
        (some { sampleConfig with
          Endpoint := (if sampleConfig.Endpoint = "" then "https://ragflow.io"
            else sampleConfig.Endpoint) ++ "/" })
        = .ok r2 ∧ r2.retrieverURL = sampleRetriever.retrieverURL) :=
  NewRetriever_url_authorization "https://ragflow.io" sampleConfig sampleRetriever (by rfl)

/-- In the range where the product fits 64 bits, the timeout is exactly
`Timeout` seconds. -/
theorem NewRetriever_timeout_in_range (defaultEndpoint : String) (c : RetrieverConfig)
    (r : Retriever) (h : NewRetriever defaultEndpoint (some c) = .ok r)
    (hlo : -2 ^ 63 ≤ c.Timeout * 1000000000) (hhi : c.Timeout * 1000000000 < 2 ^ 63) :
    r.client.Timeout = c.Timeout * 1000000000 := by
  obtain ⟨hkey, hids⟩ := NewRetriever_ok_inv defaultEndpoint c r h
  rw [NewRetriever_accepts defaultEndpoint c hkey hids] at h
  injection h with h
  subst h
  by_cases h0 : c.Timeout = 0
  · simp [h0]
  · simp only [ne_eq, h0, not_false_eq_true, if_true, wrapInt64, Second]
    omega

/-- C8: on an accepted config with `Timeout = 10 * time.Second` (ten billion), the
client's timeout is the wrapped product, a negative duration, not ten billion
seconds; with `Timeout = 2 ^ 55`, which is not zero, the wrapped product is
zero, which is no timeout. -/
theorem NewRetriever_timeout_wraps :
    (∃ r, NewRetriever "https://ragflow.io" (some { sampleConfig with Timeout := 10 * Second })
        = .ok r ∧ r.client.Timeout = -8446744073709551616 ∧
        r.client.Timeout ≠ 10 * Second * 1000000000) ∧
    (∃ r, NewRetriever "https://ragflow.io" (some { sampleConfig with Timeout := 2 ^ 55 })
        = .ok r ∧ r.client.Timeout = 0) := by
  constructor
  · refine ⟨_, NewRetriever_accepts _ _ (by decide) (by decide), ?_, ?_⟩ <;>
      simp [sampleConfig, wrapInt64, Second]
  · refine ⟨_, NewRetriever_accepts _ _ (by decide) (by decide), ?_⟩
    simp [sampleConfig, wrapInt64, Second]

/-! ## Documents: `toDoc` and the metadata accessors -/

/-- The document `toDoc` builds from a chunk, written out. -/
theorem toDoc_some (c : Chunk) :
    toDoc (some c) = .ok (some
      { ID := c.DocumentID
        Content := c.Content
        MetaData := some
          [(docMetaDataKeyScore, .float64 c.Similarity),
           (origDocIDKey, .string c.DocumentID),
           (keywordsKey, .strings c.ImportantKeywords),
           (origDocNameKey, .string c.DocumentKeyWord)] }) := by
  simp [toDoc, Document.WithScore, setOrgDocID, setKeywords, setOrgDocName, Document.assign,
    GoMap.set, docMetaDataKeyScore, origDocIDKey, keywordsKey, origDocNameKey, Except.map]

/-- A key that is not among the keys of a map is not found in it. -/
theorem GoMap.get_eq_none_of_not_mem (m : GoMap) (k : String)
    (h : k ∉ m.map Prod.fst) : m.get k = none := by
  induction m with
  | nil => rfl
  | cons kv m ih =>
    obtain ⟨k', v'⟩ := kv
    simp only [List.map_cons, List.mem_cons, not_or] at h
    simp only [GoMap.get]
    rw [if_neg (fun e => h.1 e.symm)]
    exact ih h.2

/-- C6: for a non-nil chunk, `toDoc` returns a document whose ID is the chunk's
DocumentID, whose content is the chunk's Content, whose score is the chunk's
Similarity, and from which `GetOrgDocID`, `GetOrgDocName` and `GetKeywords`
read back DocumentID, DocumentKeyWord and ImportantKeywords. -/
theorem toDoc_fields_roundtrip (c : Chunk) :
    ∃ d, toDoc (some c) = .ok (some d) ∧
      d.ID = c.DocumentID ∧ d.Content = c.Content ∧ d.Score = c.Similarity ∧
      GetOrgDocID (some d) = .ok c.DocumentID ∧
      GetOrgDocName (some d) = .ok c.DocumentKeyWord ∧
      GetKeywords (some d) = .ok c.ImportantKeywords := by
  refine ⟨_, toDoc_some c, rfl, rfl, ?_, ?_, ?_, ?_⟩ <;>
    simp [Document.Score, GetOrgDocID, GetOrgDocName, GetKeywords, Document.index, GoMap.get,
      docMetaDataKeyScore, origDocIDKey, keywordsKey, origDocNameKey]

/-- C9: on a nil document, on a document whose metadata map is nil or empty, and
on a document whose metadata map lacks the respective key, `GetOrgDocID` and
`GetOrgDocName` return the empty string and `GetKeywords` returns the nil list;
none of them panics. -/
theorem accessors_zero_when_absent (doc : Option Document) :
    ((doc = none ∨ ∃ d, doc = some d ∧ (d.MetaData = none ∨ d.MetaData = some [] ∨
        ∃ m, d.MetaData = some m ∧ origDocIDKey ∉ m.map Prod.fst)) →
      GetOrgDocID doc = .ok "") ∧
    ((doc = none ∨ ∃ d, doc = some d ∧ (d.MetaData = none ∨ d.MetaData = some [] ∨
        ∃ m, d.MetaData = some m ∧ origDocNameKey ∉ m.map Prod.fst)) →
      GetOrgDocName doc = .ok "") ∧
    ((doc = none ∨ ∃ d, doc = some d ∧ (d.MetaData = none ∨ d.MetaData = some [] ∨
        ∃ m, d.MetaData = some m ∧ keywordsKey ∉ m.map Prod.fst)) →
      GetKeywords doc = .ok none) := by
  refine ⟨?_, ?_, ?_⟩ <;>
  · rintro (rfl | ⟨d, rfl, hd | hd | ⟨m, hd, hm⟩⟩)
    · rfl
    · simp [GetOrgDocID, GetOrgDocName, GetKeywords, Document.index, hd]
    · simp [GetOrgDocID, GetOrgDocName, GetKeywords, Document.index, hd, GoMap.get]
    · simp [GetOrgDocID, GetOrgDocName, GetKeywords, Document.index, hd,
        GoMap.get_eq_none_of_not_mem m _ hm]

/-! ## Merging the per-call options -/

theorem GetCommonOptions_TopK (base : Options) (opts : List RetrieverOption) :
    (GetCommonOptions base opts).TopK =
      match suppliedTopK opts with
      | some topK => some topK
      | none => base.TopK := by
  induction opts generalizing base with
  | nil => rfl
  | cons opt opts ih =>
    have h := ih (opt.apply base)
    simp only [GetCommonOptions, List.foldl_cons] at h ⊢
    rw [h]
    simp only [suppliedTopK]
    cases suppliedTopK opts with
    | some k => rfl
    | none => cases opt <;> rfl

theorem GetCommonOptions_ScoreThreshold (base : Options) (opts : List RetrieverOption) :
    (GetCommonOptions base opts).ScoreThreshold =
      match suppliedScoreThreshold opts with
      | some threshold => some threshold
      | none => base.ScoreThreshold := by
  induction opts generalizing base with
  | nil => rfl
  | cons opt opts ih =>
    have h := ih (opt.apply base)
    simp only [GetCommonOptions, List.foldl_cons] at h ⊢
    rw [h]
    simp only [suppliedScoreThreshold]
    cases suppliedScoreThreshold opts with
    | some t => rfl
    | none => cases opt <;> rfl

theorem mergedOptions_TopK (r : Retriever) (opts : List RetrieverOption) :
    (mergedOptions r opts).TopK = effectiveTopK r.config opts := by
  simp only [mergedOptions, GetCommonOptions_TopK, effectiveTopK]
  cases suppliedTopK opts with
  | some k => rfl
  | none => cases r.config.RetrievalRequestOption <;> rfl

theorem mergedOptions_ScoreThreshold (r : Retriever) (opts : List RetrieverOption) :
    (mergedOptions r opts).ScoreThreshold = effectiveScoreThreshold r.config opts := by
  simp only [mergedOptions, GetCommonOptions_ScoreThreshold, effectiveScoreThreshold]
  cases suppliedScoreThreshold opts with
  | some t => rfl
  | none => cases r.config.RetrievalRequestOption <;> rfl

theorem suppliedScoreThreshold_eq_none (opts : List RetrieverOption)
    (h : ∀ t, RetrieverOption.WithScoreThreshold t ∉ opts) :
    suppliedScoreThreshold opts = none := by
  induction opts with
  | nil => rfl
  | cons opt opts ih =>
    have h1 := ih (fun t ht => h t (List.mem_cons_of_mem _ ht))
    simp only [suppliedScoreThreshold, h1]
    cases opt with
    | WithScoreThreshold t => exact absurd (List.mem_cons_self _ _) (h t)
    | WithTopK k => rfl
    | other => rfl

/-! ## The score filter of `Retrieve` -/

/-- The loop appends, in order, the document of every record it does not skip. -/
theorem collectDocs_eq (thr : Option ℚ) (chunks : List Chunk) (docs : List (Option Document)) :
    ∃ new, collectDocs thr chunks docs = .ok (docs ++ new) ∧
      List.Forall₂ (fun c d => toDoc (some c) = .ok d)
        (chunks.filter (fun c => !belowThreshold thr c)) new := by
  induction chunks generalizing docs with
  | nil => exact ⟨[], by simp [collectDocs], by simp⟩
  | cons c chunks ih =>
    by_cases hc : belowThreshold thr c = true
    · obtain ⟨new, h1, h2⟩ := ih docs
      refine ⟨new, ?_, ?_⟩
      · simp only [collectDocs, hc, if_true, h1]
      · simpa [List.filter_cons, hc] using h2
    · obtain ⟨d, hd⟩ : ∃ d, toDoc (some c) = .ok (some d) := ⟨_, toDoc_some c⟩
      obtain ⟨new, h1, h2⟩ := ih (docs ++ [some d])
      refine ⟨some d :: new, ?_, ?_⟩
      · simp only [collectDocs, hc, hd]
        simpa using h1
      · simp only [Bool.not_eq_true] at hc
        simp only [List.filter_cons, hc, Bool.not_false, if_true]
        exact List.Forall₂.cons hd h2

/-- What `Retrieve` returns after a successful `doPost`. -/
theorem Retrieve_of_doPost_ok (w : Remote) (r : Retriever) (query : String)
    (opts : List RetrieverOption) (result : successResponse)
    (h : doPost w r query (mergedOptions r opts) = .ok result) :
    (Retrieve w r query opts).1 =
      collectDocs (mergedOptions r opts).ScoreThreshold result.Data.Chunks [] := by
  simp only [Retrieve, h]
  obtain ⟨new, h1, -⟩ := collectDocs_eq (mergedOptions r opts).ScoreThreshold result.Data.Chunks []
  simp only [h1]

/-- What `Retrieve` returns after `doPost` returned an error. -/
theorem Retrieve_of_doPost_error (w : Remote) (r : Retriever) (query : String)
    (opts : List RetrieverOption) (err : String)
    (h : doPost w r query (mergedOptions r opts) = .error (.error err)) :
    (Retrieve w r query opts).1 = .error (.error ("failed to retrieve documents: " ++ err)) := by
  simp only [Retrieve, h]

/-! ## Status handling of `doPost` -/

/-- On a response with a status other than 200 whose body was read, `doPost`
returns the message of the error envelope, or else the status code. -/
theorem doPost_not_ok (w : Remote) (r : Retriever) (query : String) (option : Options)
    (reqData : String) (req : HttpRequest) (resp : HttpResponse) (body : String)
    (hm : w.MarshalString (getRequest r query option) = .ok reqData)
    (hn : w.NewRequestWithContext "POST" r.retrieverURL reqData = .ok req)
    (hd : w.Do r.client ((req.setHeader "Authorization" r.authorization).setHeader
      "Content-Type" "application/json") = .ok resp)
    (hb : resp.Body = .ok body) (hs : resp.StatusCode ≠ StatusOK) :
    doPost w r query option =
      match w.UnmarshalError body with
      | .ok errResp =>
        if errResp.Message ≠ "" then .error (.error ("request failed: " ++ errResp.Message))
        else .error (.error ("request failed with status code: " ++ toString resp.StatusCode))
      | .error _ =>
        .error (.error ("request failed with status code: " ++ toString resp.StatusCode)) := by
  simp only [doPost, hm, hn, hd, hb, if_pos hs]

/-- On a response with status 200 whose body was read, `doPost` returns what the
body decodes to. -/
theorem doPost_status_ok (w : Remote) (r : Retriever) (query : String) (option : Options)
    (reqData : String) (req : HttpRequest) (resp : HttpResponse) (body : String)
    (hm : w.MarshalString (getRequest r query option) = .ok reqData)
    (hn : w.NewRequestWithContext "POST" r.retrieverURL reqData = .ok req)
    (hd : w.Do r.client ((req.setHeader "Authorization" r.authorization).setHeader
      "Content-Type" "application/json") = .ok resp)
    (hb : resp.Body = .ok body) (hs : resp.StatusCode = StatusOK) :
    doPost w r query option =
      match w.UnmarshalSuccess body with
      | .error err => .error (.error ("decode response failed: " ++ err))
      | .ok res => .ok res := by
  simp only [doPost, hm, hn, hd, hb, hs, ne_eq, not_true_eq_false, if_false]

/-- C4: on a response with a failure status, `doPost` fails with
"request failed: " and the message when the body decodes to an error envelope
with a non-empty message, and with "request failed with status code: " and the
status code otherwise; `Retrieve` then returns no documents and an error whose
text contains "request failed". -/
theorem doPost_failure_status (w : Remote) (r : Retriever) (query : String)
    (opts : List RetrieverOption)
    (reqData : String) (req : HttpRequest) (resp : HttpResponse) (body : String)
    (hm : w.MarshalString (getRequest r query (mergedOptions r opts)) = .ok reqData)
    (hn : w.NewRequestWithContext "POST" r.retrieverURL reqData = .ok req)
    (hd : w.Do r.client ((req.setHeader "Authorization" r.authorization).setHeader
      "Content-Type" "application/json") = .ok resp)
    (hb : resp.Body = .ok body) (hs : resp.StatusCode ≠ StatusOK) :
    (∀ e, w.UnmarshalError body = .ok e → e.Message ≠ "" →
      doPost w r query (mergedOptions r opts)
        = .error (.error ("request failed: " ++ e.Message))) ∧
    ((∀ e, w.UnmarshalError body = .ok e → e.Message = "") →
      doPost w r query (mergedOptions r opts)
        = .error (.error ("request failed with status code: " ++ toString resp.StatusCode))) ∧
    (∃ pre post, (Retrieve w r query opts).1
        = .error (.error (pre ++ "request failed" ++ post))) := by
  have hpost := doPost_not_ok w r query (mergedOptions r opts) reqData req resp body hm hn hd hb hs
  refine ⟨?_, ?_, ?_⟩
  · intro e he hmsg
    rw [hpost, he]
    simp only [ne_eq, hmsg, not_false_eq_true, if_true]
  · intro hall
    rw [hpost]
    cases he : w.UnmarshalError body with
    | error _ => rfl
    | ok e => simp only [ne_eq, hall e he, not_true_eq_false, if_false]
  · cases he : w.UnmarshalError body with
    | error x =>
      rw [he] at hpost
      refine ⟨"failed to retrieve documents: ",
        " with status code: " ++ toString resp.StatusCode, ?_⟩
      rw [Retrieve_of_doPost_error w r query opts _ hpost]
      simp only [String.append_assoc]
      rfl
    | ok e =>
      rw [he] at hpost
      by_cases hmsg : e.Message = ""
      · refine ⟨"failed to retrieve documents: ",
          " with status code: " ++ toString resp.StatusCode, ?_⟩
        simp only [ne_eq, hmsg, not_true_eq_false, if_false] at hpost
        rw [Retrieve_of_doPost_error w r query opts _ hpost]
        simp only [String.append_assoc]
        rfl
      · refine ⟨"failed to retrieve documents: ", ": " ++ e.Message, ?_⟩
        simp only [ne_eq, hmsg, not_false_eq_true, if_true] at hpost
        rw [Retrieve_of_doPost_error w r query opts _ hpost]
        simp only [String.append_assoc]
        rfl

/-- Witness of C4: the package's test "test request error", status 404 with a
body that has no top-level message. -/
theorem doPost_failure_status_witness :
    (∀ e, (sampleRemote 404 nestedBody).UnmarshalError nestedBody = .ok e → e.Message ≠ "" →
      doPost (sampleRemote 404 nestedBody) sampleRetriever "test query"
          (mergedOptions sampleRetriever [])
        = .error (.error ("request failed: " ++ e.Message))) ∧
    ((∀ e, (sampleRemote 404 nestedBody).UnmarshalError nestedBody = .ok e → e.Message = "") →
      doPost (sampleRemote 404 nestedBody) sampleRetriever "test query"
          (mergedOptions sampleRetriever [])
        = .error (.error ("request failed with status code: " ++ toString (404 : Int)))) ∧
    (∃ pre post, (Retrieve (sampleRemote 404 nestedBody) sampleRetriever "test query" []).1
        = .error (.error (pre ++ "request failed" ++ post))) :=
  doPost_failure_status (sampleRemote 404 nestedBody) sampleRetriever "test query" []
    "request"
    { Method := "POST", URL := "http://localhost/api/v1/retrieval", Body := "request",
      Header := [] }
    { StatusCode := 404, Body := .ok nestedBody } nestedBody
    (by rfl) (by rfl) (by rfl) (by rfl) (by decide)

/-- C5, as the code has it: on a response whose body was read, `doPost` returns
the decoded success envelope when the status code is 200 and the body decodes,
fails with "decode response failed" when the status code is 200 and the body
does not decode, and fails, returning no result, on every other status code. -/
theorem doPost_classifies_by_status_ok (w : Remote) (r : Retriever) (query : String)
    (option : Options)
    (reqData : String) (req : HttpRequest) (resp : HttpResponse) (body : String)
    (hm : w.MarshalString (getRequest r query option) = .ok reqData)
    (hn : w.NewRequestWithContext "POST" r.retrieverURL reqData = .ok req)
    (hd : w.Do r.client ((req.setHeader "Authorization" r.authorization).setHeader
      "Content-Type" "application/json") = .ok resp)
    (hb : resp.Body = .ok body) :
    (resp.StatusCode = 200 → ∀ res, w.UnmarshalSuccess body = .ok res →
      doPost w r query option = .ok res) ∧
    (resp.StatusCode = 200 → ∀ err, w.UnmarshalSuccess body = .error err →
      doPost w r query option = .error (.error ("decode response failed: " ++ err))) ∧
    (resp.StatusCode ≠ 200 → ∃ msg, doPost w r query option = .error (.error msg)) := by
  refine ⟨?_, ?_, ?_⟩
  · intro hs res hres
    rw [doPost_status_ok w r query option reqData req resp body hm hn hd hb hs, hres]
  · intro hs err herr
    rw [doPost_status_ok w r query option reqData req resp body hm hn hd hb hs, herr]
  · intro hs
    rw [doPost_not_ok w r query option reqData req resp body hm hn hd hb hs]
    cases w.UnmarshalError body with
    | error _ => exact ⟨_, rfl⟩
    | ok e =>
      by_cases hmsg : e.Message = ""
      · exact ⟨"request failed with status code: " ++ toString resp.StatusCode,
          by simp only [ne_eq, hmsg, not_true_eq_false, if_false]⟩
      · exact ⟨"request failed: " ++ e.Message,
          by simp only [ne_eq, hmsg, not_false_eq_true, if_true]⟩

/-- Witness of C5 as amended: status 200 with the sample success body. -/
theorem doPost_classifies_by_status_ok_witness :
    ((200 : Int) = 200 → ∀ res, (sampleRemote 200 successBody).UnmarshalSuccess successBody
        = .ok res →
      doPost (sampleRemote 200 successBody) sampleRetriever "test query"
        (mergedOptions sampleRetriever []) = .ok res) ∧
    ((200 : Int) = 200 → ∀ err, (sampleRemote 200 successBody).UnmarshalSuccess successBody
        = .error err →
      doPost (sampleRemote 200 successBody) sampleRetriever "test query"
        (mergedOptions sampleRetriever []) = .error (.error ("decode response failed: " ++ err))) ∧
    ((200 : Int) ≠ 200 → ∃ msg,
      doPost (sampleRemote 200 successBody) sampleRetriever "test query"
        (mergedOptions sampleRetriever []) = .error (.error msg)) :=
  doPost_classifies_by_status_ok (sampleRemote 200 successBody) sampleRetriever "test query"
    (mergedOptions sampleRetriever []) "request"
    { Method := "POST", URL := "http://localhost/api/v1/retrieval", Body := "request",
      Header := [] }
    { StatusCode := 200, Body := .ok successBody } successBody
    (by rfl) (by rfl) (by rfl) (by rfl)

/-- Counterexample to C5 as stated: a response with status code 201, inside
200..299, whose body decodes as a success envelope, makes `doPost` fail with
the status-code error instead of returning the envelope. -/
theorem doPost_rejects_201 :
    (200 : Int) ≤ 201 ∧ (201 : Int) ≤ 299 ∧
    (sampleRemote 201 successBody).Do sampleRetriever.client sampleRequest
      = .ok { StatusCode := 201, Body := .ok successBody } ∧
    (sampleRemote 201 successBody).UnmarshalSuccess successBody = .ok sampleSuccess ∧
    doPost (sampleRemote 201 successBody) sampleRetriever "test query"
        (mergedOptions sampleRetriever [])
      = .error (.error "request failed with status code: 201") ∧
    doPost (sampleRemote 201 successBody) sampleRetriever "test query"
        (mergedOptions sampleRetriever []) ≠ .ok sampleSuccess := by
  refine ⟨by decide, by decide, rfl, rfl, ?_, ?_⟩
  · rfl
  · intro h
    have h2 : doPost (sampleRemote 201 successBody) sampleRetriever "test query"
        (mergedOptions sampleRetriever [])
      = .error (.error "request failed with status code: 201") := rfl
    rw [h2] at h
    exact Except.noConfusion h

/-! ## The request `Retrieve` sends and the documents it returns -/

theorem copyPtr_eq {T : Type} (p : Option T) : copyPtr p = p := by
  cases p <;> rfl

/-- The request built from the merged options is the request of the
specification. -/
theorem getRequest_mergedOptions (r : Retriever) (query : String)
    (opts : List RetrieverOption) :
    getRequest r query (mergedOptions r opts) = effectiveRequest r query opts := by
  simp only [getRequest, effectiveRequest, mergedOptions_TopK, mergedOptions_ScoreThreshold]
  cases r.config.RetrievalRequestOption with
  | none => rfl
  | some o => simp only [copy, copyPtr_eq]

/-- C1: after a response with status 200 whose body decodes, `Retrieve` returns
the response's chunks in response order, each converted by `toDoc`: all of them
when the effective score threshold is unset, and otherwise all but those whose
similarity is strictly below the effective threshold, so a chunk at the
threshold is kept; when neither the stored config nor a per-call option sets a
threshold, every chunk is returned. -/
theorem Retrieve_filters_by_threshold (w : Remote) (r : Retriever) (query : String)
    (opts : List RetrieverOption)
    (reqData : String) (req : HttpRequest) (resp : HttpResponse) (body : String)
    (result : successResponse)
    (hm : w.MarshalString (effectiveRequest r query opts) = .ok reqData)
    (hn : w.NewRequestWithContext "POST" r.retrieverURL reqData = .ok req)
    (hd : w.Do r.client ((req.setHeader "Authorization" r.authorization).setHeader
      "Content-Type" "application/json") = .ok resp)
    (hb : resp.Body = .ok body) (hs : resp.StatusCode = 200)
    (hu : w.UnmarshalSuccess body = .ok result) :
    ∃ docs, (Retrieve w r query opts).1 = .ok docs ∧
      (effectiveScoreThreshold r.config opts = none →
        List.Forall₂ (fun c d => toDoc (some c) = .ok d) result.Data.Chunks docs ∧
        docs.length = result.Data.Chunks.length) ∧
      (∀ t, effectiveScoreThreshold r.config opts = some t →
        List.Forall₂ (fun c d => toDoc (some c) = .ok d)
          (result.Data.Chunks.filter (fun c => decide (¬ c.Similarity < t))) docs ∧
        ∀ c ∈ result.Data.Chunks, c.Similarity = t → ∃ d ∈ docs, toDoc (some c) = .ok d) ∧
      ((∀ o, r.config.RetrievalRequestOption = some o → o.SimilarityThreshold = none) →
        (∀ t, RetrieverOption.WithScoreThreshold t ∉ opts) →
        List.Forall₂ (fun c d => toDoc (some c) = .ok d) result.Data.Chunks docs ∧
        docs.length = result.Data.Chunks.length) := by
  have hpost : doPost w r query (mergedOptions r opts) = .ok result := by
    rw [doPost_status_ok w r query _ reqData req resp body
      (by rw [getRequest_mergedOptions]; exact hm) hn hd hb hs, hu]
  obtain ⟨docs, h1, h2⟩ :=
    collectDocs_eq (mergedOptions r opts).ScoreThreshold result.Data.Chunks []
  rw [List.nil_append] at h1
  rw [mergedOptions_ScoreThreshold] at h2
  have hnone : effectiveScoreThreshold r.config opts = none →
      List.Forall₂ (fun c d => toDoc (some c) = .ok d) result.Data.Chunks docs ∧
      docs.length = result.Data.Chunks.length := by
    intro hnone
    rw [hnone] at h2
    have h3 : List.Forall₂ (fun c d => toDoc (some c) = .ok d) result.Data.Chunks docs := by
      simpa [belowThreshold] using h2
    exact ⟨h3, h3.length_eq.symm⟩
  refine ⟨docs, by rw [Retrieve_of_doPost_ok w r query opts result hpost, h1], hnone, ?_, ?_⟩
  · intro t ht
    have hp : (fun c : Chunk => !belowThreshold (some t) c)
        = (fun c => decide (¬ c.Similarity < t)) := by
      funext c
      simp only [belowThreshold, decide_not]
    rw [ht, hp] at h2
    refine ⟨h2, ?_⟩
    intro c hc hct
    have hmem : c ∈ result.Data.Chunks.filter (fun c => decide (¬ c.Similarity < t)) := by
      simp [List.mem_filter, hc, hct]
    obtain ⟨i, hi, rfl⟩ := List.getElem_of_mem hmem
    have hlen := h2.length_eq
    refine ⟨docs[i], List.getElem_mem _, ?_⟩
    exact (List.forall₂_iff_get.1 h2).2 i hi (hlen ▸ hi)
  · intro hcfg hopts
    apply hnone
    simp only [effectiveScoreThreshold, suppliedScoreThreshold_eq_none opts hopts]
    cases hr : r.config.RetrievalRequestOption with
    | none => rfl
    | some o => exact hcfg o hr

/-- Witness of C1: the package's test "test with score threshold", a per-call
threshold of 0.7 on the chunks with similarity 0.8 and 0.6. -/
theorem Retrieve_filters_by_threshold_witness :
    ∃ docs, (Retrieve (sampleRemote 200 successBody) sampleRetriever "test query"
        [.WithScoreThreshold (7 / 10)]).1 = .ok docs ∧
      (effectiveScoreThreshold sampleRetriever.config [.WithScoreThreshold (7 / 10)] = none →
        List.Forall₂ (fun c d => toDoc (some c) = .ok d) sampleSuccess.Data.Chunks docs ∧
        docs.length = sampleSuccess.Data.Chunks.length) ∧
      (∀ t, effectiveScoreThreshold sampleRetriever.config [.WithScoreThreshold (7 / 10)]
          = some t →
        List.Forall₂ (fun c d => toDoc (some c) = .ok d)
          (sampleSuccess.Data.Chunks.filter (fun c => decide (¬ c.Similarity < t))) docs ∧
        ∀ c ∈ sampleSuccess.Data.Chunks, c.Similarity = t →
          ∃ d ∈ docs, toDoc (some c) = .ok d) ∧
      ((∀ o, sampleRetriever.config.RetrievalRequestOption = some o →
          o.SimilarityThreshold = none) →
        (∀ t, RetrieverOption.WithScoreThreshold t ∉ [RetrieverOption.WithScoreThreshold (7 / 10)]) →
        List.Forall₂ (fun c d => toDoc (some c) = .ok d) sampleSuccess.Data.Chunks docs ∧
        docs.length = sampleSuccess.Data.Chunks.length) :=
  Retrieve_filters_by_threshold (sampleRemote 200 successBody) sampleRetriever "test query"
    [.WithScoreThreshold (7 / 10)] "request"
    { Method := "POST", URL := "http://localhost/api/v1/retrieval", Body := "request",
      Header := [] }
    { StatusCode := 200, Body := .ok successBody } successBody sampleSuccess
    (by rfl) (by rfl) (by rfl) (by rfl) (by rfl) (by rfl)

/-- The package's test "test with score threshold", run on the model: with a
per-call threshold of 0.7 `Retrieve` returns one document, that of the chunk
with similarity 0.8; without a threshold it returns two. -/
theorem Retrieve_test_score_threshold :
    (∃ d, (Retrieve (sampleRemote 200 successBody) sampleRetriever "test query"
        [.WithScoreThreshold (7 / 10)]).1 = .ok [some d] ∧
      d.ID = "1st" ∧ d.Content = "test content 1" ∧ d.Score = 8 / 10) ∧
    (∃ d1 d2, (Retrieve (sampleRemote 200 successBody) sampleRetriever "test query" []).1
        = .ok [some d1, some d2] ∧ d1.Score = 8 / 10 ∧ d2.Score = 6 / 10) := by
  have hpost : ∀ o, doPost (sampleRemote 200 successBody) sampleRetriever "test query" o
      = .ok sampleSuccess := fun _ => rfl
  constructor
  · refine ⟨{ ID := "1st", Content := "test content 1",
              MetaData := some
                [(docMetaDataKeyScore, .float64 (8 / 10)), (origDocIDKey, .string "1st"),
                 (keywordsKey, .strings none), (origDocNameKey, .string "testName.file")] },
      ?_, rfl, rfl, ?_⟩
    · rw [Retrieve_of_doPost_ok _ _ _ _ _ (hpost _), mergedOptions_ScoreThreshold]
      simp only [effectiveScoreThreshold, suppliedScoreThreshold, sampleSuccess, sampleChunks,
        collectDocs, belowThreshold, toDoc_some]
      norm_num
    · simp [Document.Score, Document.index, GoMap.get, docMetaDataKeyScore]
  · refine ⟨{ ID := "1st", Content := "test content 1",
              MetaData := some
                [(docMetaDataKeyScore, .float64 (8 / 10)), (origDocIDKey, .string "1st"),
                 (keywordsKey, .strings none), (origDocNameKey, .string "testName.file")] },
            { ID := "1st", Content := "test content 2",
              MetaData := some
                [(docMetaDataKeyScore, .float64 (6 / 10)), (origDocIDKey, .string "1st"),
                 (keywordsKey, .strings none), (origDocNameKey, .string "testName.file")] },
      ?_, ?_, ?_⟩
    · rw [Retrieve_of_doPost_ok _ _ _ _ _ (hpost _), mergedOptions_ScoreThreshold]
      simp only [effectiveScoreThreshold, suppliedScoreThreshold, sampleRetriever, sampleConfig,
        sampleSuccess, sampleChunks, collectDocs, belowThreshold, toDoc_some]
      rfl
    · simp [Document.Score, Document.index, GoMap.get, docMetaDataKeyScore]
    · simp [Document.Score, Document.index, GoMap.get, docMetaDataKeyScore]

namespace Mem

theorem copyPtr_extends {T : Type} [Inhabited T] (cells : List T) (p : Ptr) :
    cells <+: (copyPtr cells p).2 := by
  cases p with
  | none => exact List.prefix_refl _
  | some a => exact List.prefix_append _ _

theorem deref_of_extends {T : Type} (cells cells' : List T) (p : Ptr)
    (hv : validPtr cells p) (h : cells <+: cells') : deref cells' p = deref cells p := by
  cases p with
  | none => rfl
  | some a =>
    obtain ⟨t, rfl⟩ := h
    simp only [deref, validPtr] at hv ⊢
    simp [List.getElem?_append_left hv]

theorem copyPtr_deref {T : Type} [Inhabited T] (cells cells' : List T) (p : Ptr)
    (hv : validPtr cells p) (h : (copyPtr cells p).2 <+: cells') :
    deref cells' (copyPtr cells p).1 = deref cells p := by
  cases p with
  | none => rfl
  | some a =>
    obtain ⟨t, rfl⟩ := h
    simp only [deref, validPtr, copyPtr] at hv ⊢
    rw [List.getD_eq_getElem?_getD, List.getElem?_eq_getElem hv, Option.getD_some,
      List.append_assoc, List.get?_eq_getElem?, List.getElem?_append_right (le_refl _)]
    simp

/-- The copy of a stored struct, with the memory after each allocation named. -/
theorem copy_some (h : Heap) (x : RetrievalRequestOption) :
    copy h (some x) =
      ({ Page := (copyPtr h.ints x.Page).1
         PageSize := (copyPtr (copyPtr h.ints x.Page).2 x.PageSize).1
         SimilarityThreshold := (copyPtr h.floats x.SimilarityThreshold).1
         VectorSimilarityWeight :=
           (copyPtr (copyPtr h.floats x.SimilarityThreshold).2 x.VectorSimilarityWeight).1
         TopK := (copyPtr (copyPtr (copyPtr h.ints x.Page).2 x.PageSize).2 x.TopK).1
         RerankID := x.RerankID
         Keyword := x.Keyword
         Highlight := x.Highlight },
       { ints := (copyPtr (copyPtr (copyPtr h.ints x.Page).2 x.PageSize).2 x.TopK).2
         floats :=
           (copyPtr (copyPtr h.floats x.SimilarityThreshold).2 x.VectorSimilarityWeight).2 }) :=
  rfl

/-- No call of `copy` overwrites a cell. -/
theorem copy_extends (h : Heap) (x : Option RetrievalRequestOption) :
    h.ints <+: (copy h x).2.ints ∧ h.floats <+: (copy h x).2.floats := by
  cases x with
  | none => exact ⟨List.prefix_refl _, List.prefix_refl _⟩
  | some x =>
    rw [copy_some]
    exact ⟨((copyPtr_extends _ _).trans (copyPtr_extends _ _)).trans (copyPtr_extends _ _),
      (copyPtr_extends _ _).trans (copyPtr_extends _ _)⟩

/-- The copy of a stored struct reads, field by field, as the original. -/
theorem copy_view (h : Heap) (x : RetrievalRequestOption) (hv : x.valid h) :
    (copy h (some x)).1.view (copy h (some x)).2 = x.view h := by
  obtain ⟨h1, h2, h3, h4, h5⟩ := hv
  have p1 := copyPtr_extends h.ints x.Page
  have p2 := copyPtr_extends (copyPtr h.ints x.Page).2 x.PageSize
  have p3 := copyPtr_extends (copyPtr (copyPtr h.ints x.Page).2 x.PageSize).2 x.TopK
  have q1 := copyPtr_extends h.floats x.SimilarityThreshold
  have q2 := copyPtr_extends (copyPtr h.floats x.SimilarityThreshold).2 x.VectorSimilarityWeight
  have v2 : validPtr (copyPtr h.ints x.Page).2 x.PageSize := by
    cases hp : x.PageSize with
    | none => trivial
    | some a =>
      rw [hp] at h2
      exact lt_of_lt_of_le h2 p1.length_le
  have v5 : validPtr (copyPtr (copyPtr h.ints x.Page).2 x.PageSize).2 x.TopK := by
    cases hp : x.TopK with
    | none => trivial
    | some a =>
      rw [hp] at h5
      exact lt_of_lt_of_le h5 (p1.trans p2).length_le
  have v4 : validPtr (copyPtr h.floats x.SimilarityThreshold).2 x.VectorSimilarityWeight := by
    cases hp : x.VectorSimilarityWeight with
    | none => trivial
    | some a =>
      rw [hp] at h4
      exact lt_of_lt_of_le h4 q1.length_le
  rw [copy_some]
  simp only [RetrievalRequestOption.view]
  rw [copyPtr_deref _ _ _ h1 (p2.trans p3),
    copyPtr_deref _ _ _ v2 p3, deref_of_extends _ _ _ h2 p1,
    copyPtr_deref _ _ _ h3 q2,
    copyPtr_deref _ _ _ v4 (List.prefix_refl _), deref_of_extends _ _ _ h4 q1,
    copyPtr_deref _ _ _ v5 (List.prefix_refl _), deref_of_extends _ _ _ h5 (p1.trans p2)]

/-- Reading the stored struct after allocations gives the same values. -/
theorem view_of_extends (h h' : Heap) (x : RetrievalRequestOption) (hv : x.valid h)
    (hi : h.ints <+: h'.ints) (hf : h.floats <+: h'.floats) : x.view h' = x.view h := by
  obtain ⟨h1, h2, h3, h4, h5⟩ := hv
  simp only [RetrievalRequestOption.view]
  rw [deref_of_extends _ _ _ h1 hi, deref_of_extends _ _ _ h2 hi, deref_of_extends _ _ _ h3 hf,
    deref_of_extends _ _ _ h4 hf, deref_of_extends _ _ _ h5 hi]

/-- The request over explicit memory reads as the request `Ragflow.getRequest`
builds from the values behind the pointers. -/
theorem getRequest_view (s : State) (query : String) (option : Options) (r : Retriever)
    (hv : s.valid)
    (ht : validPtr s.heap.ints option.TopK) (hs : validPtr s.heap.floats option.ScoreThreshold)
    (hd : r.config.DatasetIDs = s.DatasetIDs) (hdoc : r.config.DocumentIDs = s.DocumentIDs)
    (ho : r.config.RetrievalRequestOption = s.stored.map (fun x => x.view s.heap)) :
    (getRequest s query option).1.view (getRequest s query option).2.heap
      = Ragflow.getRequest r query (option.view s.heap) := by
  have hp := copy_extends s.heap s.stored
  simp only [getRequest, Ragflow.getRequest, request.view, hd, hdoc, ho, Options.view]
  cases hst : s.stored with
  | none =>
    rw [hst] at hp
    simp only [RetrievalRequestOption.view, Option.map_none', Ragflow.copy, copy, deref]
  | some x =>
    rw [hst] at hp
    have hx : x.valid s.heap := by
      have := hv
      rw [State.valid, hst] at this
      exact this
    have hc := copy_view s.heap x hx
    simp only [RetrievalRequestOption.view] at hc ⊢
    simp only [Ragflow.RetrievalRequestOption.mk.injEq] at hc
    obtain ⟨c1, c2, c3, c4, c5, c6, c7, c8⟩ := hc
    simp only [Option.map_some', Ragflow.copy, Ragflow.copyPtr, RetrievalRequestOption.view]
    rw [c1, c2, c4, c6, c7, c8, deref_of_extends _ _ _ ht hp.1, deref_of_extends _ _ _ hs hp.2]
    cases deref s.heap.ints x.Page <;> cases deref s.heap.ints x.PageSize <;>
      cases deref s.heap.floats x.VectorSimilarityWeight <;> rfl

end Mem

/-- C10: building a request leaves the stored config as it was: the stored
struct keeps its fields, no existing cell is overwritten, so every field of the
stored options reads as before; and the request's page, page size, vector
similarity weight, rerank id, keyword and highlight are the stored ones, or
unset, empty and false when the config has no options. -/
theorem getRequest_frame (s : Mem.State) (query : String) (option : Mem.Options)
    (hv : s.valid) :
    (Mem.getRequest s query option).2.stored = s.stored ∧
    (Mem.getRequest s query option).2.DatasetIDs = s.DatasetIDs ∧
    (Mem.getRequest s query option).2.DocumentIDs = s.DocumentIDs ∧
    s.heap.ints <+: (Mem.getRequest s query option).2.heap.ints ∧
    s.heap.floats <+: (Mem.getRequest s query option).2.heap.floats ∧
    (∀ x, s.stored = some x →
      x.view (Mem.getRequest s query option).2.heap = x.view s.heap ∧
      ((Mem.getRequest s query option).1.RetrievalRequestOption.view
          (Mem.getRequest s query option).2.heap).Page = (x.view s.heap).Page ∧
      ((Mem.getRequest s query option).1.RetrievalRequestOption.view
          (Mem.getRequest s query option).2.heap).PageSize = (x.view s.heap).PageSize ∧
      ((Mem.getRequest s query option).1.RetrievalRequestOption.view
          (Mem.getRequest s query option).2.heap).VectorSimilarityWeight
        = (x.view s.heap).VectorSimilarityWeight ∧
      (Mem.getRequest s query option).1.RetrievalRequestOption.RerankID = x.RerankID ∧
      (Mem.getRequest s query option).1.RetrievalRequestOption.Keyword = x.Keyword ∧
      (Mem.getRequest s query option).1.RetrievalRequestOption.Highlight = x.Highlight) ∧
    (s.stored = none →
      (Mem.getRequest s query option).1.RetrievalRequestOption.Page = none ∧
      (Mem.getRequest s query option).1.RetrievalRequestOption.PageSize = none ∧
      (Mem.getRequest s query option).1.RetrievalRequestOption.VectorSimilarityWeight = none ∧
      (Mem.getRequest s query option).1.RetrievalRequestOption.RerankID = "" ∧
      (Mem.getRequest s query option).1.RetrievalRequestOption.Keyword = false ∧
      (Mem.getRequest s query option).1.RetrievalRequestOption.Highlight = false) := by
  have hp := Mem.copy_extends s.heap s.stored
  refine ⟨rfl, rfl, rfl, hp.1, hp.2, ?_, ?_⟩
  · intro x hst
    have hx : x.valid s.heap := by
      have := hv
      rw [Mem.State.valid, hst] at this
      exact this
    have hc := Mem.copy_view s.heap x hx
    simp only [Mem.getRequest, hst] at hp ⊢
    refine ⟨Mem.view_of_extends _ _ x hx hp.1 hp.2, ?_, ?_, ?_, rfl, rfl, rfl⟩
    · have h1 := congrArg Ragflow.RetrievalRequestOption.Page hc
      exact h1
    · have h1 := congrArg Ragflow.RetrievalRequestOption.PageSize hc
      exact h1
    · have h1 := congrArg Ragflow.RetrievalRequestOption.VectorSimilarityWeight hc
      exact h1
  · intro hst
    simp only [Mem.getRequest, hst, Mem.copy]
    exact ⟨trivial, trivial, trivial, trivial, trivial, trivial⟩

/-- Witness of C10 at `sampleState` with a per-call top-K. -/
theorem getRequest_frame_witness :
    (Mem.getRequest sampleState "test query" sampleOptions).2.stored = sampleState.stored ∧
    (Mem.getRequest sampleState "test query" sampleOptions).2.heap.ints = [1, 10, 5, 3, 1, 10, 5] ∧
    ((Mem.getRequest sampleState "test query" sampleOptions).1.view
        (Mem.getRequest sampleState "test query" sampleOptions).2.heap).RetrievalRequestOption.TopK
      = some 3 ∧
    ((Mem.getRequest sampleState "test query" sampleOptions).1.view
        (Mem.getRequest sampleState "test query" sampleOptions).2.heap).RetrievalRequestOption.Page
      = some 1 :=
  ⟨(getRequest_frame sampleState "test query" sampleOptions (by decide)).1,
    by decide, by decide, by decide⟩

/-! ## The error for missing dataset and document IDs -/

/-- C12, as the code has it: for a config with a non-empty APIKey and with both
DatasetIDs and DocumentIDs empty, `NewRetriever` fails with the message
"dataset_ids or document_ids,one of its is required", which has no blank after
the comma. -/
theorem NewRetriever_ids_required (defaultEndpoint : String) (c : RetrieverConfig)
    (hkey : c.APIKey ≠ "") (hids : c.DatasetIDs.len = 0 ∧ c.DocumentIDs.len = 0) :
    NewRetriever defaultEndpoint (some c)
      = .error (.error "dataset_ids or document_ids,one of its is required") := by
  simp only [NewRetriever, if_neg hkey, if_pos hids]

/-- Witness of C12 as amended: the package's test "test empty dataset_id". -/
theorem NewRetriever_ids_required_witness :
    NewRetriever "https://ragflow.io" (some noIDsConfig)
      = .error (.error "dataset_ids or document_ids,one of its is required") :=
  NewRetriever_ids_required "https://ragflow.io" noIDsConfig (by decide) (by decide)

/-- Counterexample to C12 as stated: on the config of the package's test
"test empty dataset_id", which has an APIKey and no IDs, the error message is
not "dataset_ids or document_ids, one of its is required". -/
theorem NewRetriever_ids_message_differs :
    noIDsConfig.APIKey ≠ "" ∧
    noIDsConfig.DatasetIDs.len = 0 ∧ noIDsConfig.DocumentIDs.len = 0 ∧
    NewRetriever "https://ragflow.io" (some noIDsConfig)
      ≠ .error (.error "dataset_ids or document_ids, one of its is required") := by
  refine ⟨by decide, by decide, by decide, ?_⟩
  have h : NewRetriever "https://ragflow.io" (some noIDsConfig)
      = .error (.error "dataset_ids or document_ids,one of its is required") := rfl
  rw [h]
  intro e
  injection e with e
  injection e with e
  exact absurd e (by decide)

end Ragflow

/-! # The hooks of `LogCallback` -/

namespace Callback

/-- The start hook of `LogCallback` is the start function over the defaulted
config. -/
theorem OnStart_cases {κ σ ι ο : Type} (Stdout : IoWriter σ) (json : Json ι)
    (config : Option (LogCallbackConfig σ)) (world : σ) (ctx : Option κ)
    (info : Option RunInfo) (input : ι) :
    (LogCallback Stdout json config : Handler κ σ ι ο).OnStart world ctx info input
      = OnStartFn
          (match config with
            | none => true
            | some c => c.Detail)
          (match config with
            | none => false
            | some c => c.Debug)
          (writerOf Stdout config) json world ctx info input := by
  cases config with
  | none => rfl
  | some c => rfl

/-- The end hook of `LogCallback` writes to the same writer. -/
theorem OnEnd_cases {κ σ ι ο : Type} (Stdout : IoWriter σ) (json : Json ι)
    (config : Option (LogCallbackConfig σ)) (world : σ) (ctx : Option κ)
    (info : Option RunInfo) (output : ο) :
    (LogCallback Stdout json config : Handler κ σ ι ο).OnEnd world ctx info output
      = OnEndFn (writerOf Stdout config) world ctx info output := by
  cases config with
  | none => rfl
  | some c => rfl

/-- The start hook after a header write that failed. -/
theorem OnStartFn_header_failed {κ σ ι : Type} (Detail Debug : Bool) (Writer : IoWriter σ)
    (json : Json ι) (world w1 : σ) (ctx : Option κ) (info : RunInfo) (input : ι)
    (err : String)
    (h : Writer world
      ("[view]: start [" ++ info.Component ++ ":" ++ info.Typ ++ ":" ++ info.Name ++ "]\n")
        = (some err, w1)) :
    OnStartFn Detail Debug Writer json world ctx (some info) input
      = .ok { ctx := none
              world := w1
              writes := [("[view]: start [" ++ info.Component ++ ":" ++ info.Typ ++ ":"
                ++ info.Name ++ "]\n", some err)]
              logs := ["[logCallBack build OnStartFn] writr [view] err=" ++ err] } := by
  simp only [OnStartFn, h]

/-- The start hook after a header write that succeeded, without detail. -/
theorem OnStartFn_header_only {κ σ ι : Type} (Debug : Bool) (Writer : IoWriter σ)
    (json : Json ι) (world w1 : σ) (ctx : Option κ) (info : RunInfo) (input : ι)
    (h : Writer world
      ("[view]: start [" ++ info.Component ++ ":" ++ info.Typ ++ ":" ++ info.Name ++ "]\n")
        = (none, w1)) :
    OnStartFn false Debug Writer json world ctx (some info) input
      = .ok { ctx := ctx
              world := w1
              writes := [("[view]: start [" ++ info.Component ++ ":" ++ info.Typ ++ ":"
                ++ info.Name ++ "]\n", none)]
              logs := [] } := by
  simp [OnStartFn, h]

/-- The start hook after a header write that succeeded, with detail: the second
write is the payload line, and its outcome decides the context. -/
theorem OnStartFn_detail {κ σ ι : Type} (Debug : Bool) (Writer : IoWriter σ)
    (json : Json ι) (world w1 : σ) (ctx : Option κ) (info : RunInfo) (input : ι)
    (h : Writer world
      ("[view]: start [" ++ info.Component ++ ":" ++ info.Typ ++ ":" ++ info.Name ++ "]\n")
        = (none, w1)) :
    ∃ rs line, OnStartFn true Debug Writer json world ctx (some info) input = .ok rs ∧
      line = (if Debug = true then bytesOrNil (json.MarshalIndent input)
        else bytesOrNil (json.Marshal input)) ++ "\n" ∧
      rs.writes = [("[view]: start [" ++ info.Component ++ ":" ++ info.Typ ++ ":"
          ++ info.Name ++ "]\n", none), (line, (Writer w1 line).1)] ∧
      rs.world = (Writer w1 line).2 ∧
      rs.ctx = (if (Writer w1 line).1.isSome then none else ctx) ∧
      (∀ err, (Writer w1 line).1 = some err →
        rs.logs = ["[logCallBack build OnStartFn] writr [input] err=" ++ err]) := by
  simp only [OnStartFn, h, if_true]
  rcases hw : Writer w1 ((if Debug = true then bytesOrNil (json.MarshalIndent input)
      else bytesOrNil (json.Marshal input)) ++ "\n") with ⟨_ | e, w2⟩
  · exact ⟨_, _, rfl, rfl, by simp [hw], by simp [hw], by simp [hw], by simp [hw]⟩
  · exact ⟨_, _, rfl, rfl, by simp [hw], by simp [hw], by simp [hw], by simp [hw]⟩

/-- The end hook after a header write that succeeded. -/
theorem OnEndFn_ok {κ σ ο : Type} (Writer : IoWriter σ) (world w1 : σ) (ctx : Option κ)
    (info : RunInfo) (output : ο)
    (h : Writer world
      ("[view]: end [" ++ info.Component ++ ":" ++ info.Typ ++ ":" ++ info.Name ++ "]\n")
        = (none, w1)) :
    OnEndFn Writer world ctx (some info) output
      = .ok { ctx := ctx
              world := w1
              writes := [("[view]: end [" ++ info.Component ++ ":" ++ info.Typ ++ ":"
                ++ info.Name ++ "]\n", none)]
              logs := [] } := by
  simp only [OnEndFn, h]

/-- The end hook after a header write that failed. -/
theorem OnEndFn_failed {κ σ ο : Type} (Writer : IoWriter σ) (world w1 : σ) (ctx : Option κ)
    (info : RunInfo) (output : ο) (err : String)
    (h : Writer world
      ("[view]: end [" ++ info.Component ++ ":" ++ info.Typ ++ ":" ++ info.Name ++ "]\n")
        = (some err, w1)) :
    OnEndFn Writer world ctx (some info) output
      = .ok { ctx := none
              world := w1
              writes := [("[view]: end [" ++ info.Component ++ ":" ++ info.Typ ++ ":"
                ++ info.Name ++ "]\n", some err)]
              logs := ["[logCallBack build OnEndFn] writr [view] err=" ++ err] } := by
  simp only [OnEndFn, h]

/-- C11, as the code has it: for a non-nil run info, each hook of `LogCallback`
returns; it returns a nil context when one of the writes it attempted failed
and the input context when none did, so for a non-nil input context the result
is nil exactly when a write failed; the write error ends in the log and nowhere
else. The start hook writes its header first, and after a failed header write
it writes nothing more; otherwise it writes the header alone or the header and
one payload line. The end hook writes its one header line and nothing else,
whatever the config is. -/
theorem LogCallback_hooks {κ σ ι ο : Type} (Stdout : IoWriter σ) (json : Json ι)
    (config : Option (LogCallbackConfig σ)) (world : σ) (ctx : Option κ) (info : RunInfo)
    (input : ι) (output : ο) :
    (∃ rs, (LogCallback Stdout json config : Handler κ σ ι ο).OnStart
          world ctx (some info) input = .ok rs ∧
      rs.ctx = (if rs.writeFailed then none else ctx) ∧
      (ctx ≠ none → (rs.ctx = none ↔ rs.writeFailed = true)) ∧
      (∀ err w1,
        writerOf Stdout config world
            ("[view]: start [" ++ info.Component ++ ":" ++ info.Typ ++ ":" ++ info.Name
              ++ "]\n")
          = (some err, w1) →
        rs = { ctx := none
               world := w1
               writes := [("[view]: start [" ++ info.Component ++ ":" ++ info.Typ ++ ":"
                 ++ info.Name ++ "]\n", some err)]
               logs := ["[logCallBack build OnStartFn] writr [view] err=" ++ err] }) ∧
      (∀ w1,
        writerOf Stdout config world
            ("[view]: start [" ++ info.Component ++ ":" ++ info.Typ ++ ":" ++ info.Name
              ++ "]\n")
          = (none, w1) →
        rs.writes = [("[view]: start [" ++ info.Component ++ ":" ++ info.Typ ++ ":"
                ++ info.Name ++ "]\n", none)] ∨
        ∃ line, rs.writes
            = [("[view]: start [" ++ info.Component ++ ":" ++ info.Typ ++ ":"
                ++ info.Name ++ "]\n", none),
               (line, (writerOf Stdout config w1 line).1)])) ∧
    (∃ re, (LogCallback Stdout json config : Handler κ σ ι ο).OnEnd
          world ctx (some info) output = .ok re ∧
      re.ctx = (if re.writeFailed then none else ctx) ∧
      (ctx ≠ none → (re.ctx = none ↔ re.writeFailed = true)) ∧
      re.writes
        = [("[view]: end [" ++ info.Component ++ ":" ++ info.Typ ++ ":" ++ info.Name ++ "]\n",
            (writerOf Stdout config world
              ("[view]: end [" ++ info.Component ++ ":" ++ info.Typ ++ ":" ++ info.Name
                ++ "]\n")).1)] ∧
      re.world
        = (writerOf Stdout config world
            ("[view]: end [" ++ info.Component ++ ":" ++ info.Typ ++ ":" ++ info.Name
              ++ "]\n")).2 ∧
      (∀ err, (writerOf Stdout config world
            ("[view]: end [" ++ info.Component ++ ":" ++ info.Typ ++ ":" ++ info.Name
              ++ "]\n")).1 = some err →
        re.logs = ["[logCallBack build OnEndFn] writr [view] err=" ++ err])) := by
  rw [OnStart_cases, OnEnd_cases]
  generalize writerOf Stdout config = writer
  generalize (match config with
    | none => true
    | some c => c.Detail) = detail
  generalize (match config with
    | none => false
    | some c => c.Debug) = debug
  constructor
  · rcases hw : writer world
        ("[view]: start [" ++ info.Component ++ ":" ++ info.Typ ++ ":" ++ info.Name ++ "]\n")
      with ⟨_ | e, w1⟩
    · cases detail
      · refine ⟨_, OnStartFn_header_only debug writer json world w1 ctx info input hw, ?_, ?_,
          ?_, ?_⟩
        · simp [HookResult.writeFailed]
        · intro hne
          simp [HookResult.writeFailed, hne]
        · intro err w2 h
          exact absurd h (by simp)
        · intro w2 _
          exact Or.inl rfl
      · obtain ⟨rs, line, hrs, -, hwrites, -, hctx, -⟩ :=
          OnStartFn_detail debug writer json world w1 ctx info input hw
        have hfail : rs.writeFailed = (writer w1 line).1.isSome := by
          simp [HookResult.writeFailed, hwrites]
        refine ⟨rs, hrs, ?_, ?_, ?_, ?_⟩
        · rw [hfail, hctx]
        · intro hne
          rw [hfail, hctx]
          cases (writer w1 line).1 <;> simp [hne]
        · intro err w2 h
          exact absurd h (by simp)
        · intro w2 h
          have hw2 : w2 = w1 := by
            have := congrArg Prod.snd h
            exact this.symm
          subst hw2
          exact Or.inr ⟨line, hwrites⟩
    · refine ⟨_, OnStartFn_header_failed detail debug writer json world w1 ctx info input e hw,
        ?_, ?_, ?_, ?_⟩
      · simp [HookResult.writeFailed]
      · intro _
        simp [HookResult.writeFailed]
      · intro err w2 h
        simp only [Prod.mk.injEq, Option.some.injEq] at h
        obtain ⟨rfl, rfl⟩ := h
        rfl
      · intro w2 h
        exact absurd h (by simp)
  · rcases hw : writer world
        ("[view]: end [" ++ info.Component ++ ":" ++ info.Typ ++ ":" ++ info.Name ++ "]\n")
      with ⟨_ | e, w1⟩
    · refine ⟨_, OnEndFn_ok writer world w1 ctx info output hw, ?_, ?_, rfl, rfl, ?_⟩
      · simp [HookResult.writeFailed]
      · intro hne
        simp [HookResult.writeFailed, hne]
      · intro err h
        exact absurd h (by simp)
    · refine ⟨_, OnEndFn_failed writer world w1 ctx info output e hw, ?_, ?_, rfl, rfl, ?_⟩
      · simp [HookResult.writeFailed]
      · intro _
        simp [HookResult.writeFailed]
      · intro err h
        simp only [Option.some.injEq] at h
        subst h
        rfl

/-- Counterexample to C11 as stated: with a nil config, a writer that accepts
every write and a nil input context, the start hook and the end hook return a
nil context although no write failed; and with a nil run info the start hook
panics instead of returning. -/
theorem LogCallback_nil_context :
    (∃ rs, (LogCallback (limitedWriter 2) sampleJson none
          : Handler Nat (List String) String String).OnStart [] none (some sampleInfo) "q"
        = .ok rs ∧ rs.ctx = none ∧ rs.writeFailed = false ∧
        rs.world = ["[view]: start [Retriever:RAGFlow:]\n", "\"q\"\n"]) ∧
    (∃ re, (LogCallback (limitedWriter 2) sampleJson none
          : Handler Nat (List String) String String).OnEnd [] none (some sampleInfo) "done"
        = .ok re ∧ re.ctx = none ∧ re.writeFailed = false) ∧
    (LogCallback (limitedWriter 2) sampleJson none
          : Handler Nat (List String) String String).OnStart [] (some 7) none "q"
      = .error (.panic "runtime error: invalid memory address or nil pointer dereference") :=
  ⟨⟨_, rfl, rfl, rfl, rfl⟩, ⟨_, rfl, rfl, rfl⟩, rfl⟩

/-- A sample run of the start hook with detail on, on a writer that accepts the
header and fails on the payload line: the hook returns nil, the world holds the
header alone, and the error is logged. -/
theorem LogCallback_sample_run :
    (LogCallback (limitedWriter 0) sampleJson
        (some { Detail := true, Debug := false, Writer := some (limitedWriter 1) })
      : Handler Nat (List String) String String).OnStart [] (some 7) (some sampleInfo) "q"
      = .ok { ctx := none
              world := ["[view]: start [Retriever:RAGFlow:]\n"]
              writes := [("[view]: start [Retriever:RAGFlow:]\n", none),
                         ("\"q\"\n", some "short write")]
              logs := ["[logCallBack build OnStartFn] writr [input] err=short write"] } := by
  rfl

end Callback
